import Mathlib

set_option maxHeartbeats 1000000

/-!
Shallow embedding of the electra JSON/YAML codec of go-eth2-client:
`BlindedBeaconBlockBody.MarshalJSON`/`unpack`
(api/v1/electra/blindedbeaconblockbody_json.go),
`SignedBeaconBlock.MarshalJSON`/`unpack` (the unnamed source file), and
`SignedBlockContents.MarshalYAML`/`UnmarshalYAML`
(api/v1/electra/signedblockcontents_yaml.go).

Go strings are modelled as `List Char`, byte slices/arrays as `List Nat`
(each entry a byte value `< 256`), Go `nil` pointers/slices as `none`, and
errors as `Option String` holding the Go error message.  The Go standard
library `encoding/json` marshal/parse of the wire-shape struct is an
external transport treated as the identity on the wire shape: the
repository's own logic — building the wire shape and the `unpack`
validation pass — is embedded faithfully.  `unpack` mutates its receiver
in Go, so it is embedded as a state transformer returning the final
receiver together with the (optional) error.
-/

namespace Eth2

/-! ### Scalar hex codec: Go `encoding/hex`, `strings.TrimPrefix`, `fmt %#x` -/

/-- Hex digit table used by the Go hex encoder (`"0123456789abcdef"`). -/
def hextable : List Char :=
  "0123456789abcdef".toList

/-- Value of a single hex digit character (Go `encoding/hex` `fromHexChar`):
decimal digits, lowercase `a`-`f` and uppercase `A`-`F` are accepted. -/
def fromHexChar (c : Char) : Option Nat :=
  if '0' ≤ c ∧ c ≤ '9' then some (c.toNat - '0'.toNat)
  else if 'a' ≤ c ∧ c ≤ 'f' then some (c.toNat - 'a'.toNat + 10)
  else if 'A' ≤ c ∧ c ≤ 'F' then some (c.toNat - 'A'.toNat + 10)
  else none

/-- Go `hex.DecodeString`: decodes consecutive digit pairs left to right; an
invalid digit is an invalid-byte error, a trailing lone valid digit an
odd-length error. -/
def hexDecode : List Char → Except String (List Nat)
  | [] => .ok []
  | [c] =>
    match fromHexChar c with
    | none => .error "encoding/hex: invalid byte"
    | some _ => .error "encoding/hex: odd length hex string"
  | c1 :: c2 :: rest =>
    match fromHexChar c1 with
    | none => .error "encoding/hex: invalid byte"
    | some hi =>
      match fromHexChar c2 with
      | none => .error "encoding/hex: invalid byte"
      | some lo =>
        match hexDecode rest with
        | .error e => .error e
        | .ok tail => .ok ((hi * 16 + lo) :: tail)

/-- Two lowercase hex digits of one byte. -/
def byteHex (b : Nat) : List Char :=
  [hextable.getD (b / 16) '0', hextable.getD (b % 16) '0']

/-- Lowercase hex digits of a byte sequence. -/
def bytesToHex : List Nat → List Char
  | [] => []
  | b :: t => byteHex b ++ bytesToHex t

/-- Go `fmt.Sprintf("%#x", ...)` on a byte array: `0x` followed by lowercase
hex digit pairs. -/
def goHexFmt (bs : List Nat) : List Char :=
  '0' :: 'x' :: bytesToHex bs

/-- Go `strings.TrimPrefix(s, "0x")`: drops one leading lowercase `"0x"` when
present, otherwise returns the string unchanged.  Case-sensitive: `"0X"` is
not a recognised prefix. -/
def trimPrefix0x (s : List Char) : List Char :=
  if s.take 2 = ['0', 'x'] then s.drop 2 else s

/-- Go `bytes.ReplaceAll(yamlBytes, []byte(quote), []byte(apostrophe))` on
single-character patterns: pointwise substitution of every double-quote
character by a single-quote character. -/
def replaceQuotes (s : List Char) : List Char :=
  s.map fun c => if c = '"' then '\'' else c

/-! ### Fixed lengths (`phase0.SignatureLength`, `phase0.GraffitiLength`,
`deneb.KZGCommitmentLength`) -/

/-- Value of `phase0.SignatureLength` (bytes of a BLS signature). -/
def SignatureLength : Nat := 96

/-- Value of `phase0.GraffitiLength` (bytes of the graffiti field). -/
def GraffitiLength : Nat := 32

/-- Value of `deneb.KZGCommitmentLength` (bytes of a KZG commitment). -/
def KZGCommitmentLength : Nat := 48

/-! ### Opaque nested domain objects.  Their own codecs are out of scope
(the codec treats them as opaque nested entities validated by their own
JSON unmarshalers during parse), so each is a token carrying no structure
the blinded-block-body codec inspects. -/

/-- Opaque `phase0.ETH1Data` value. -/
structure ETH1Data where
  val : Nat
  deriving DecidableEq

/-- Opaque `phase0.ProposerSlashing` value. -/
structure ProposerSlashing where
  val : Nat
  deriving DecidableEq

/-- Opaque `electra.AttesterSlashing` value. -/
structure AttesterSlashing where
  val : Nat
  deriving DecidableEq

/-- Opaque `electra.Attestation` value. -/
structure Attestation where
  val : Nat
  deriving DecidableEq

/-- Opaque `phase0.Deposit` value. -/
structure Deposit where
  val : Nat
  deriving DecidableEq

/-- Opaque `phase0.SignedVoluntaryExit` value. -/
structure SignedVoluntaryExit where
  val : Nat
  deriving DecidableEq

/-- Opaque `altair.SyncAggregate` value. -/
structure SyncAggregate where
  val : Nat
  deriving DecidableEq

/-- Opaque `deneb.ExecutionPayloadHeader` value. -/
structure ExecutionPayloadHeader where
  val : Nat
  deriving DecidableEq

/-- Opaque `capella.SignedBLSToExecutionChange` value. -/
structure SignedBLSToExecutionChange where
  val : Nat
  deriving DecidableEq

/-- Opaque `electra.ExecutionRequests` value. -/
structure ExecutionRequests where
  val : Nat
  deriving DecidableEq

/-- Opaque `electra.BeaconBlock` value (nested message of a signed block). -/
structure BeaconBlock where
  val : Nat
  deriving DecidableEq

/-! ### Domain objects and wire shapes -/

/-- Domain `api/v1/electra.BlindedBeaconBlockBody`.  Go pointer fields and
slices may be nil, hence `Option`; slice elements of pointer type may be
nil, hence element type `Option _`. -/
structure BlindedBeaconBlockBody where
  randaoReveal : List Nat
  eth1Data : Option ETH1Data
  graffiti : List Nat
  proposerSlashings : Option (List (Option ProposerSlashing))
  attesterSlashings : Option (List (Option AttesterSlashing))
  attestations : Option (List (Option Attestation))
  deposits : Option (List (Option Deposit))
  voluntaryExits : Option (List (Option SignedVoluntaryExit))
  syncAggregate : Option SyncAggregate
  executionPayloadHeader : Option ExecutionPayloadHeader
  blsToExecutionChanges : Option (List (Option SignedBLSToExecutionChange))
  blobKZGCommitments : Option (List (List Nat))
  executionRequests : Option ExecutionRequests
  deriving DecidableEq

/-- Wire shape `blindedBeaconBlockBodyJSON`: hex byte fields become strings,
nested objects stay as (already-validated) nested values behind Go
pointers. -/
structure blindedBeaconBlockBodyJSON where
  randaoReveal : List Char
  eth1Data : Option ETH1Data
  graffiti : List Char
  proposerSlashings : Option (List (Option ProposerSlashing))
  attesterSlashings : Option (List (Option AttesterSlashing))
  attestations : Option (List (Option Attestation))
  deposits : Option (List (Option Deposit))
  voluntaryExits : Option (List (Option SignedVoluntaryExit))
  syncAggregate : Option SyncAggregate
  executionPayloadHeader : Option ExecutionPayloadHeader
  blsToExecutionChanges : Option (List (Option SignedBLSToExecutionChange))
  blobKZGCommitments : Option (List (List Char))
  executionRequests : Option ExecutionRequests
  deriving DecidableEq

/-- Domain `api/v1/electra.SignedBeaconBlock` (the two fields its JSON file
touches). -/
structure SignedBeaconBlock where
  message : Option BeaconBlock
  signature : List Nat
  deriving DecidableEq

/-- Wire shape `signedBeaconBlockJSON`. -/
structure signedBeaconBlockJSON where
  message : Option BeaconBlock
  signature : List Char
  deriving DecidableEq

/-! ### MarshalJSON (wire-shape construction; the `json.Marshal` call on the
wire struct is the external Go standard library transport) -/

/-- `BlindedBeaconBlockBody.MarshalJSON`: builds the wire shape; byte fields
are rendered with `fmt %#x`, blob KZG commitments via a fresh
`make([]string, len)` filled from `KZGCommitment.String()` (so the wire
field is never nil), all other fields copied verbatim. -/
def BlindedBeaconBlockBody.MarshalJSON (b : BlindedBeaconBlockBody) :
    blindedBeaconBlockBodyJSON :=
  { randaoReveal := goHexFmt b.randaoReveal
    eth1Data := b.eth1Data
    graffiti := goHexFmt b.graffiti
    proposerSlashings := b.proposerSlashings
    attesterSlashings := b.attesterSlashings
    attestations := b.attestations
    deposits := b.deposits
    voluntaryExits := b.voluntaryExits
    syncAggregate := b.syncAggregate
    executionPayloadHeader := b.executionPayloadHeader
    blsToExecutionChanges := b.blsToExecutionChanges
    blobKZGCommitments := some ((b.blobKZGCommitments.getD []).map goHexFmt)
    executionRequests := b.executionRequests }

/-- `SignedBeaconBlock.MarshalJSON`: builds the wire shape. -/
def SignedBeaconBlock.MarshalJSON (s : SignedBeaconBlock) :
    signedBeaconBlockJSON :=
  { message := s.message
    signature := goHexFmt s.signature }

/-! ### unpack helpers -/

/-- The nil-element check loop
`for i := range xs { if xs[i] == nil { return fmt.Errorf("... entry %d missing", i) } }`,
with the running index made explicit. -/
def entriesCheck {α : Type} (name : String) : Nat → List (Option α) → Option String
  | _, [] => none
  | i, none :: _ => some (name ++ " entry " ++ toString i ++ " missing")
  | i, some _ :: rest => entriesCheck name (i + 1) rest

/-- The empty-string check loop over blob KZG commitment strings
(`if data.BlobKZGCommitments[i] == "" { ... entry %d missing }`). -/
def emptyEntriesCheck (name : String) : Nat → List (List Char) → Option String
  | _, [] => none
  | i, s :: rest =>
    if s = [] then some (name ++ " entry " ++ toString i ++ " missing")
    else emptyEntriesCheck name (i + 1) rest

/-- All-zero 48-byte commitment: the value `make([]deneb.KZGCommitment, n)`
pre-allocates for each entry before the decode loop fills it. -/
def zeros48 : List Nat := List.replicate 48 0

/-- The blob KZG commitment decode loop (lines 181-191 of the body file):
decodes each string in order into the pre-allocated slice; on the first
hex or length error the remaining entries are left as the zero value and
the error is returned alongside the partially filled slice. -/
def decodeKZGCommitments : List (List Char) → List (List Nat) × Option String
  | [] => ([], none)
  | s :: rest =>
    match hexDecode (trimPrefix0x s) with
    | .error e =>
      (zeros48 :: rest.map fun _ => zeros48,
        some ("failed to parse blob KZG commitment: " ++ e))
    | .ok ds =>
      if ds.length ≠ KZGCommitmentLength then
        (zeros48 :: rest.map fun _ => zeros48,
          some "incorrect length for blob KZG commitment")
      else
        let r := decodeKZGCommitments rest
        (ds :: r.1, r.2)

/-- Sequencing of unpack stages: Go's early `return err` on error, the
receiver keeping whatever the completed stages already wrote into it. -/
def andThen (r : BlindedBeaconBlockBody × Option String)
    (f : BlindedBeaconBlockBody → BlindedBeaconBlockBody × Option String) :
    BlindedBeaconBlockBody × Option String :=
  match r with
  | (b, none) => f b
  | (b, some e) => (b, some e)

/-! ### unpack stages for `BlindedBeaconBlockBody` (one per field block of
`unpack`, in declaration order) -/

/-- Lines 84-94: RANDAO reveal presence, hex decode, length check, copy. -/
def unpackRANDAOReveal (data : blindedBeaconBlockBodyJSON)
    (b : BlindedBeaconBlockBody) : BlindedBeaconBlockBody × Option String :=
  if data.randaoReveal = [] then (b, some "RANDAO reveal missing")
  else
    match hexDecode (trimPrefix0x data.randaoReveal) with
    | .error e => (b, some ("invalid value for RANDAO reveal: " ++ e))
    | .ok r =>
      if r.length ≠ SignatureLength then
        (b, some "incorrect length for RANDAO reveal")
      else ({ b with randaoReveal := r }, none)

/-- Lines 95-98: ETH1 data nil check and copy. -/
def unpackETH1Data (data : blindedBeaconBlockBodyJSON)
    (b : BlindedBeaconBlockBody) : BlindedBeaconBlockBody × Option String :=
  match data.eth1Data with
  | none => (b, some "ETH1 data missing")
  | some e => ({ b with eth1Data := some e }, none)

/-- Lines 99-109: graffiti presence, hex decode, length check, copy. -/
def unpackGraffiti (data : blindedBeaconBlockBodyJSON)
    (b : BlindedBeaconBlockBody) : BlindedBeaconBlockBody × Option String :=
  if data.graffiti = [] then (b, some "graffiti missing")
  else
    match hexDecode (trimPrefix0x data.graffiti) with
    | .error e => (b, some ("invalid value for graffiti: " ++ e))
    | .ok g =>
      if g.length ≠ GraffitiLength then (b, some "incorrect length for graffiti")
      else ({ b with graffiti := g }, none)

/-- Lines 110-118: proposer slashings nil check, element checks, copy. -/
def unpackProposerSlashings (data : blindedBeaconBlockBodyJSON)
    (b : BlindedBeaconBlockBody) : BlindedBeaconBlockBody × Option String :=
  match data.proposerSlashings with
  | none => (b, some "proposer slashings missing")
  | some l =>
    match entriesCheck "proposer slashings" 0 l with
    | some e => (b, some e)
    | none => ({ b with proposerSlashings := some l }, none)

/-- Lines 119-127: attester slashings nil check, element checks, copy. -/
def unpackAttesterSlashings (data : blindedBeaconBlockBodyJSON)
    (b : BlindedBeaconBlockBody) : BlindedBeaconBlockBody × Option String :=
  match data.attesterSlashings with
  | none => (b, some "attester slashings missing")
  | some l =>
    match entriesCheck "attester slashings" 0 l with
    | some e => (b, some e)
    | none => ({ b with attesterSlashings := some l }, none)

/-- Lines 128-136: attestations nil check, element checks, copy. -/
def unpackAttestations (data : blindedBeaconBlockBodyJSON)
    (b : BlindedBeaconBlockBody) : BlindedBeaconBlockBody × Option String :=
  match data.attestations with
  | none => (b, some "attestations missing")
  | some l =>
    match entriesCheck "attestations" 0 l with
    | some e => (b, some e)
    | none => ({ b with attestations := some l }, none)

/-- Lines 137-145: deposits nil check, element checks, copy. -/
def unpackDeposits (data : blindedBeaconBlockBodyJSON)
    (b : BlindedBeaconBlockBody) : BlindedBeaconBlockBody × Option String :=
  match data.deposits with
  | none => (b, some "deposits missing")
  | some l =>
    match entriesCheck "deposits" 0 l with
    | some e => (b, some e)
    | none => ({ b with deposits := some l }, none)

/-- Lines 146-154: voluntary exits nil check, element checks, copy. -/
def unpackVoluntaryExits (data : blindedBeaconBlockBodyJSON)
    (b : BlindedBeaconBlockBody) : BlindedBeaconBlockBody × Option String :=
  match data.voluntaryExits with
  | none => (b, some "voluntary exits missing")
  | some l =>
    match entriesCheck "voluntary exits" 0 l with
    | some e => (b, some e)
    | none => ({ b with voluntaryExits := some l }, none)

/-- Lines 155-158: sync aggregate nil check and copy. -/
def unpackSyncAggregate (data : blindedBeaconBlockBodyJSON)
    (b : BlindedBeaconBlockBody) : BlindedBeaconBlockBody × Option String :=
  match data.syncAggregate with
  | none => (b, some "sync aggregate missing")
  | some sa => ({ b with syncAggregate := some sa }, none)

/-- Lines 159-162: execution payload header nil check and copy. -/
def unpackExecutionPayloadHeader (data : blindedBeaconBlockBodyJSON)
    (b : BlindedBeaconBlockBody) : BlindedBeaconBlockBody × Option String :=
  match data.executionPayloadHeader with
  | none => (b, some "execution payload header missing")
  | some h => ({ b with executionPayloadHeader := some h }, none)

/-- Lines 163-172: the single optional field; nil defaults to an empty
(non-nil) slice, a present slice gets the element nil checks. -/
def unpackBLSToExecutionChanges (data : blindedBeaconBlockBodyJSON)
    (b : BlindedBeaconBlockBody) : BlindedBeaconBlockBody × Option String :=
  match data.blsToExecutionChanges with
  | none => ({ b with blsToExecutionChanges := some [] }, none)
  | some l =>
    match entriesCheck "bls to execution changes" 0 l with
    | some e => (b, some e)
    | none => ({ b with blsToExecutionChanges := some l }, none)

/-- Lines 173-191: blob KZG commitments nil check, empty-string element
checks, then allocation and the decode loop. -/
def unpackBlobKZGCommitments (data : blindedBeaconBlockBodyJSON)
    (b : BlindedBeaconBlockBody) : BlindedBeaconBlockBody × Option String :=
  match data.blobKZGCommitments with
  | none => (b, some "blob KZG commitments missing")
  | some l =>
    match emptyEntriesCheck "blob KZG commitments" 0 l with
    | some e => (b, some e)
    | none =>
      let r := decodeKZGCommitments l
      ({ b with blobKZGCommitments := some r.1 }, r.2)

/-- Lines 192-195: execution requests nil check and copy. -/
def unpackExecutionRequests (data : blindedBeaconBlockBodyJSON)
    (b : BlindedBeaconBlockBody) : BlindedBeaconBlockBody × Option String :=
  match data.executionRequests with
  | none => (b, some "execution requests missing")
  | some r => ({ b with executionRequests := some r }, none)

/-- `BlindedBeaconBlockBody.unpack`: the field blocks in declaration order,
each early-returning its error with the receiver as mutated so far. -/
def BlindedBeaconBlockBody.unpack (b : BlindedBeaconBlockBody)
    (data : blindedBeaconBlockBodyJSON) : BlindedBeaconBlockBody × Option String :=
  andThen (unpackRANDAOReveal data b) fun b =>
  andThen (unpackETH1Data data b) fun b =>
  andThen (unpackGraffiti data b) fun b =>
  andThen (unpackProposerSlashings data b) fun b =>
  andThen (unpackAttesterSlashings data b) fun b =>
  andThen (unpackAttestations data b) fun b =>
  andThen (unpackDeposits data b) fun b =>
  andThen (unpackVoluntaryExits data b) fun b =>
  andThen (unpackSyncAggregate data b) fun b =>
  andThen (unpackExecutionPayloadHeader data b) fun b =>
  andThen (unpackBLSToExecutionChanges data b) fun b =>
  andThen (unpackBlobKZGCommitments data b) fun b =>
  unpackExecutionRequests data b

/-- `SignedBeaconBlock.unpack`: message nil check and copy, then signature
presence, hex decode, length check, copy.  The message is written into the
receiver before the signature is validated, as in the Go code. -/
def SignedBeaconBlock.unpack (s : SignedBeaconBlock)
    (data : signedBeaconBlockJSON) : SignedBeaconBlock × Option String :=
  match data.message with
  | none => (s, some "message missing")
  | some m =>
    let s1 : SignedBeaconBlock := { s with message := some m }
    if data.signature = [] then (s1, some "signature missing")
    else
      match hexDecode (trimPrefix0x data.signature) with
      | .error e => (s1, some ("invalid value for signature: " ++ e))
      | .ok sig =>
        if sig.length ≠ SignatureLength then
          (s1, some ("incorrect length " ++ toString sig.length ++ " for signature"))
        else ({ s1 with signature := sig }, none)

/-! ### SignedBlockContents.  The YAML file is under src/; the matching JSON
codec file (`signedblockcontents_json.go`) is not, so the JSON side is
modelled from the spec (section 6 bundle format and section 4.2). -/

/-- Modelled from the spec: the domain `SignedBlockContents` bundle (its Go
struct definition is not under src/): `signed_block`, `kzg_proofs`,
`blobs`. -/
structure SignedBlockContents where
  signedBlock : Option SignedBeaconBlock
  kzgProofs : Option (List (List Nat))
  blobs : Option (List (List Nat))
  deriving DecidableEq

/-- Modelled from the spec: wire shape `signedBlockContentsJSON` (its Go
definition is not under src/).  The nested signed block is validated by its
own codec during parse, so it appears already decoded. -/
structure signedBlockContentsJSON where
  signedBlock : Option SignedBeaconBlock
  kzgProofs : Option (List (List Char))
  blobs : Option (List (List Char))
  deriving DecidableEq

/-- Wire shape `signedBlockContentsYAML` (signedblockcontents_yaml.go lines
28-32): same three fields, nested values serialized by their own codecs. -/
structure signedBlockContentsYAML where
  signedBlock : Option SignedBeaconBlock
  kzgProofs : Option (List (List Nat))
  blobs : Option (List (List Nat))
  deriving DecidableEq

/-- Hex-decode every string of a list, failing on the first bad one. -/
def decodeHexList : List (List Char) → Except String (List (List Nat))
  | [] => .ok []
  | s :: rest =>
    match hexDecode (trimPrefix0x s) with
    | .error e => .error e
    | .ok ds =>
      match decodeHexList rest with
      | .error e => .error e
      | .ok t => .ok (ds :: t)

/-- Modelled from the spec: `SignedBlockContents.MarshalJSON` at the
wire-shape level (its Go file is not under src/): hex-encode the byte
sequences, copy the rest verbatim. -/
def SignedBlockContents.MarshalJSON (s : SignedBlockContents) :
    signedBlockContentsJSON :=
  { signedBlock := s.signedBlock
    kzgProofs := s.kzgProofs.map fun l => l.map goHexFmt
    blobs := s.blobs.map fun l => l.map goHexFmt }

/-- Modelled from the spec: `SignedBlockContents.UnmarshalJSON` unpack pass
(its Go file is not under src/): every field mandatory, hex strings
decoded via the scalar hex codec, fail-fast on the first error. -/
def SignedBlockContents.UnmarshalJSON (s : SignedBlockContents)
    (data : signedBlockContentsJSON) : SignedBlockContents × Option String :=
  match data.signedBlock with
  | none => (s, some "signed block missing")
  | some sb =>
    let s1 : SignedBlockContents := { s with signedBlock := some sb }
    match data.kzgProofs with
    | none => (s1, some "kzg proofs missing")
    | some ps =>
      match decodeHexList ps with
      | .error e => (s1, some ("invalid value for kzg proofs: " ++ e))
      | .ok pbs =>
        let s2 : SignedBlockContents := { s1 with kzgProofs := some pbs }
        match data.blobs with
        | none => (s2, some "blobs missing")
        | some bl =>
          match decodeHexList bl with
          | .error e => (s2, some ("invalid value for blobs: " ++ e))
          | .ok bbs => ({ s2 with blobs := some bbs }, none)

/-- The wire shape `MarshalYAML` hands to the flow-style emitter
(signedblockcontents_yaml.go lines 36-40). -/
def SignedBlockContents.yamlShape (s : SignedBlockContents) :
    signedBlockContentsYAML :=
  { signedBlock := s.signedBlock
    kzgProofs := s.kzgProofs
    blobs := s.blobs }

/-- `SignedBlockContents.MarshalYAML` (lines 35-46): render the wire shape
with the external flow-style YAML emitter (a black box, passed as a
parameter), then replace every double quote by a single quote. -/
def SignedBlockContents.MarshalYAML
    (yamlEmit : signedBlockContentsYAML → List Char)
    (s : SignedBlockContents) : List Char :=
  replaceQuotes (yamlEmit s.yamlShape)

/-- `SignedBlockContents.UnmarshalYAML` (lines 49-62): parse the YAML into
the JSON wire shape with the external YAML parser (a black box, passed as
a parameter); on success the shape is re-serialized to JSON and handed to
`UnmarshalJSON`, which at the wire-shape level is exactly
`UnmarshalJSON` on the parsed shape. -/
def SignedBlockContents.UnmarshalYAML
    (yamlParse : List Char → Except String signedBlockContentsJSON)
    (s : SignedBlockContents) (input : List Char) :
    SignedBlockContents × Option String :=
  match yamlParse input with
  | .error e => (s, some ("failed to unmarshal YAML: " ++ e))
  | .ok shape => s.UnmarshalJSON shape

/-! ### Well-formedness of domain objects (the "validly constructed" /
"all mandatory fields populated" side conditions of the spec) -/

/-- Every element of the sequence is present (non-nil). -/
abbrev AllSome {α : Type} (l : List (Option α)) : Prop := ∀ x ∈ l, x.isSome

/-- Position `i` is the first nil element of the sequence. -/
abbrev FirstNoneAt {α : Type} (l : List (Option α)) (i : Nat) : Prop :=
  l.get? i = some none ∧ ∀ j < i, l.get? j ≠ some none

/-- Well-formed `BlindedBeaconBlockBody`: byte fields of their mandated
lengths with byte-sized entries, every mandatory pointer/slice non-nil,
every sequence element non-nil. -/
abbrev WFBody (o : BlindedBeaconBlockBody) : Prop :=
  o.randaoReveal.length = SignatureLength ∧ (∀ x ∈ o.randaoReveal, x < 256) ∧
  o.eth1Data.isSome ∧
  o.graffiti.length = GraffitiLength ∧ (∀ x ∈ o.graffiti, x < 256) ∧
  o.proposerSlashings.isSome ∧ AllSome (o.proposerSlashings.getD []) ∧
  o.attesterSlashings.isSome ∧ AllSome (o.attesterSlashings.getD []) ∧
  o.attestations.isSome ∧ AllSome (o.attestations.getD []) ∧
  o.deposits.isSome ∧ AllSome (o.deposits.getD []) ∧
  o.voluntaryExits.isSome ∧ AllSome (o.voluntaryExits.getD []) ∧
  o.syncAggregate.isSome ∧ o.executionPayloadHeader.isSome ∧
  o.blsToExecutionChanges.isSome ∧ AllSome (o.blsToExecutionChanges.getD []) ∧
  o.blobKZGCommitments.isSome ∧
  (∀ c ∈ o.blobKZGCommitments.getD [],
    c.length = KZGCommitmentLength ∧ ∀ x ∈ c, x < 256) ∧
  o.executionRequests.isSome

/-- Well-formed `SignedBeaconBlock`: message present, signature of the
mandated length with byte-sized entries. -/
abbrev WFSigned (s : SignedBeaconBlock) : Prop :=
  s.message.isSome ∧ s.signature.length = SignatureLength ∧
  ∀ x ∈ s.signature, x < 256

/-! ### Concrete objects for witnesses and counterexamples -/

/-- A fully populated well-formed blinded beacon block body. -/
def exBody : BlindedBeaconBlockBody :=
  { randaoReveal := List.replicate 96 1
    eth1Data := some ⟨7⟩
    graffiti := List.replicate 32 2
    proposerSlashings := some []
    attesterSlashings := some [some ⟨1⟩]
    attestations := some []
    deposits := some []
    voluntaryExits := some []
    syncAggregate := some ⟨3⟩
    executionPayloadHeader := some ⟨4⟩
    blsToExecutionChanges := some []
    blobKZGCommitments := some [List.replicate 48 5]
    executionRequests := some ⟨6⟩ }

/-- The zero-valued receiver a fresh Go `BlindedBeaconBlockBody` starts as. -/
def emptyBody : BlindedBeaconBlockBody :=
  { randaoReveal := []
    eth1Data := none
    graffiti := []
    proposerSlashings := none
    attesterSlashings := none
    attestations := none
    deposits := none
    voluntaryExits := none
    syncAggregate := none
    executionPayloadHeader := none
    blsToExecutionChanges := none
    blobKZGCommitments := none
    executionRequests := none }

/-- A well-formed signed beacon block. -/
def exSigned : SignedBeaconBlock :=
  { message := some ⟨9⟩
    signature := List.replicate 96 3 }

/-- The zero-valued receiver a fresh Go `SignedBeaconBlock` starts as. -/
def emptySigned : SignedBeaconBlock :=
  { message := none
    signature := [] }

/-- Wire document with a valid RANDAO reveal but a missing (nil) ETH1 data
field and everything after it absent too. -/
def c2Data : blindedBeaconBlockBodyJSON :=
  { randaoReveal := goHexFmt (List.replicate 96 1)
    eth1Data := none
    graffiti := []
    proposerSlashings := none
    attesterSlashings := none
    attestations := none
    deposits := none
    voluntaryExits := none
    syncAggregate := none
    executionPayloadHeader := none
    blsToExecutionChanges := none
    blobKZGCommitments := none
    executionRequests := none }

/-- Wire document valid in every field before the blob KZG commitments,
whose single commitment entry decodes to 47 bytes: the blob decode loop
fails its length check only after the receiver's field was assigned the
pre-allocated zero-filled slice. -/
def c2DataBlob : blindedBeaconBlockBodyJSON :=
  { randaoReveal := goHexFmt (List.replicate 96 1)
    eth1Data := some ⟨7⟩
    graffiti := goHexFmt (List.replicate 32 2)
    proposerSlashings := some []
    attesterSlashings := some []
    attestations := some []
    deposits := some []
    voluntaryExits := some []
    syncAggregate := some ⟨3⟩
    executionPayloadHeader := some ⟨4⟩
    blsToExecutionChanges := some []
    blobKZGCommitments := some [goHexFmt (List.replicate 47 0)]
    executionRequests := some ⟨6⟩ }

/-- A populated signed-block-contents bundle. -/
def exContents : SignedBlockContents :=
  { signedBlock := some exSigned
    kzgProofs := some []
    blobs := some [] }

/-- Trivial stand-in for the external YAML emitter, used to instantiate the
black-box parameter at a concrete input. -/
def exYamlEmit : signedBlockContentsYAML → List Char := fun _ => []

/-- Stand-in for the external YAML parser that recovers the wire shape of
`exContents`, as the real parser does on the emitted document. -/
def exYamlParse : List Char → Except String signedBlockContentsJSON :=
  fun _ => .ok exContents.MarshalJSON

/-- Stand-in emitter whose output contains a double quote. -/
def exYamlEmitQ : signedBlockContentsYAML → List Char := fun _ => ['"', 'a']

end Eth2

namespace Eth2

/-! ## Facts about the scalar hex codec -/

theorem fromHexChar_hextable :
    ∀ n : Fin 16, fromHexChar (hextable.getD n.val '0') = some n.val := by
  decide

theorem hextable_getD_ne_x : ∀ n : Fin 16, hextable.getD n.val '0' ≠ 'x' := by
  decide

theorem hexDecode_bytesToHex (bs : List Nat) (h : ∀ x ∈ bs, x < 256) :
    hexDecode (bytesToHex bs) = .ok bs := by
  induction bs with
  | nil => rfl
  | cons b t ih =>
    have hb : b < 256 := h b (List.mem_cons_self b t)
    have hdiv : b / 16 < 16 := by omega
    have hmod : b % 16 < 16 := Nat.mod_lt _ (by norm_num)
    have h1 : fromHexChar (hextable.getD (b / 16) '0') = some (b / 16) :=
      fromHexChar_hextable ⟨b / 16, hdiv⟩
    have h2 : fromHexChar (hextable.getD (b % 16) '0') = some (b % 16) :=
      fromHexChar_hextable ⟨b % 16, hmod⟩
    have hshape : bytesToHex (b :: t) =
        hextable.getD (b / 16) '0' :: hextable.getD (b % 16) '0' :: bytesToHex t := rfl
    have key : b / 16 * 16 + b % 16 = b := by omega
    rw [hshape]
    simp only [hexDecode, h1, h2,
      ih (fun x hx => h x (List.mem_cons_of_mem _ hx)), key]

theorem trimPrefix0x_goHexFmt (bs : List Nat) :
    trimPrefix0x (goHexFmt bs) = bytesToHex bs := by
  simp [trimPrefix0x, goHexFmt]

theorem trimPrefix0x_bytesToHex (bs : List Nat) :
    trimPrefix0x (bytesToHex bs) = bytesToHex bs := by
  cases bs with
  | nil => rfl
  | cons b t =>
    have hx : hextable.getD (b % 16) '0' ≠ 'x' :=
      hextable_getD_ne_x ⟨b % 16, Nat.mod_lt _ (by norm_num)⟩
    have hshape : bytesToHex (b :: t) =
        hextable.getD (b / 16) '0' :: hextable.getD (b % 16) '0' :: bytesToHex t := rfl
    have hcond : ¬ ((hextable.getD (b / 16) '0' :: hextable.getD (b % 16) '0' ::
        bytesToHex t).take 2 = ['0', 'x']) := by
      intro hc
      simp only [List.take_succ_cons, List.take_zero] at hc
      injection hc with h1 hrest
      injection hrest with h2 hnil
      exact hx h2
    rw [hshape]
    simp only [trimPrefix0x]
    rw [if_neg hcond]

theorem hexDecode_trim_goHexFmt (bs : List Nat) (h : ∀ x ∈ bs, x < 256) :
    hexDecode (trimPrefix0x (goHexFmt bs)) = .ok bs := by
  rw [trimPrefix0x_goHexFmt, hexDecode_bytesToHex bs h]

theorem hexDecode_trim_bytesToHex (bs : List Nat) (h : ∀ x ∈ bs, x < 256) :
    hexDecode (trimPrefix0x (bytesToHex bs)) = .ok bs := by
  rw [trimPrefix0x_bytesToHex, hexDecode_bytesToHex bs h]

theorem goHexFmt_ne_nil (bs : List Nat) : goHexFmt bs ≠ [] := by
  simp [goHexFmt]

theorem bytesToHex_ne_nil {bs : List Nat} (h : bs ≠ []) : bytesToHex bs ≠ [] := by
  cases bs with
  | nil => exact absurd rfl h
  | cons b t => simp [bytesToHex, byteHex]

/-! ## Facts about the sequence element checks -/

theorem entriesCheck_none {α : Type} (name : String) (k : Nat)
    {l : List (Option α)} (h : AllSome l) : entriesCheck name k l = none := by
  induction l generalizing k with
  | nil => rfl
  | cons x t ih =>
    cases x with
    | none => exact absurd (h none (List.mem_cons_self _ _)) (by simp)
    | some a =>
      simp only [entriesCheck]
      exact ih _ (fun y hy => h y (List.mem_cons_of_mem _ hy))

theorem entriesCheck_firstNone {α : Type} (name : String) {l : List (Option α)}
    {i : Nat} (h : FirstNoneAt l i) :
    ∀ k, entriesCheck name k l =
      some (name ++ " entry " ++ toString (k + i) ++ " missing") := by
  induction l generalizing i with
  | nil => simp [FirstNoneAt] at h
  | cons x t ih =>
    intro k
    cases x with
    | none =>
      have hi0 : i = 0 := by
        by_contra hne
        exact h.2 0 (Nat.pos_of_ne_zero hne) rfl
      subst hi0
      simp [entriesCheck]
    | some a =>
      cases i with
      | zero =>
        have h1 := h.1
        simp at h1
      | succ j =>
        have h' : FirstNoneAt t j := by
          constructor
          · simpa using h.1
          · intro j' hj' hc
            exact h.2 (j' + 1) (by omega) (by simpa using hc)
        have hrec := ih h' (k + 1)
        have harith : k + 1 + j = k + (j + 1) := by omega
        rw [harith] at hrec
        simpa only [entriesCheck] using hrec

theorem emptyEntriesCheck_none (name : String) (k : Nat) {l : List (List Char)}
    (h : ∀ s ∈ l, s ≠ []) : emptyEntriesCheck name k l = none := by
  induction l generalizing k with
  | nil => rfl
  | cons s t ih =>
    simp only [emptyEntriesCheck]
    rw [if_neg (h s (List.mem_cons_self _ _))]
    exact ih _ (fun y hy => h y (List.mem_cons_of_mem _ hy))

theorem decodeKZGCommitments_map_goHexFmt {cs : List (List Nat)}
    (h : ∀ c ∈ cs, c.length = KZGCommitmentLength ∧ ∀ x ∈ c, x < 256) :
    decodeKZGCommitments (cs.map goHexFmt) = (cs, none) := by
  induction cs with
  | nil => rfl
  | cons c t ih =>
    obtain ⟨hlen, hbytes⟩ := h c (List.mem_cons_self _ _)
    simp only [List.map_cons, decodeKZGCommitments,
      hexDecode_trim_goHexFmt c hbytes]
    rw [if_neg (by simp [hlen])]
    simp [ih (fun y hy => h y (List.mem_cons_of_mem _ hy))]

/-! ## Facts about stage sequencing -/

theorem andThen_ok (b : BlindedBeaconBlockBody)
    (f : BlindedBeaconBlockBody → BlindedBeaconBlockBody × Option String) :
    andThen (b, none) f = f b := rfl

theorem andThen_err (b : BlindedBeaconBlockBody) (e : String)
    (f : BlindedBeaconBlockBody → BlindedBeaconBlockBody × Option String) :
    andThen (b, some e) f = (b, some e) := rfl

theorem andThen_eq_none
    (r : BlindedBeaconBlockBody × Option String)
    (f : BlindedBeaconBlockBody → BlindedBeaconBlockBody × Option String)
    (h : (andThen r f).2 = none) : r.2 = none ∧ (f r.1).2 = none := by
  rcases r with ⟨b, err⟩
  cases err with
  | none => exact ⟨rfl, h⟩
  | some e => simp [andThen] at h

end Eth2

namespace Eth2

/-! ## Per-stage evaluation lemmas.  Each stage's success or failure depends
only on the wire data, never on the receiver, so all are stated for every
receiver `b`. -/

theorem unpackRANDAOReveal_ok (data : blindedBeaconBlockBodyJSON) {r : List Nat}
    (h1 : data.randaoReveal ≠ [])
    (h2 : hexDecode (trimPrefix0x data.randaoReveal) = .ok r)
    (h3 : r.length = SignatureLength) :
    ∀ b, unpackRANDAOReveal data b = ({ b with randaoReveal := r }, none) := by
  intro b
  simp [unpackRANDAOReveal, h1, h2, h3]

theorem unpackRANDAOReveal_missing (data : blindedBeaconBlockBodyJSON)
    (h : data.randaoReveal = []) :
    ∀ b, unpackRANDAOReveal data b = (b, some "RANDAO reveal missing") := by
  intro b
  simp [unpackRANDAOReveal, h]

theorem unpackRANDAOReveal_badlen (data : blindedBeaconBlockBodyJSON) {r : List Nat}
    (h1 : data.randaoReveal ≠ [])
    (h2 : hexDecode (trimPrefix0x data.randaoReveal) = .ok r)
    (h3 : r.length ≠ SignatureLength) :
    ∀ b, unpackRANDAOReveal data b = (b, some "incorrect length for RANDAO reveal") := by
  intro b
  simp [unpackRANDAOReveal, h1, h2, h3]

theorem unpackETH1Data_ok (data : blindedBeaconBlockBodyJSON) {e : ETH1Data}
    (h : data.eth1Data = some e) :
    ∀ b, unpackETH1Data data b = ({ b with eth1Data := some e }, none) := by
  intro b
  simp [unpackETH1Data, h]

theorem unpackETH1Data_missing (data : blindedBeaconBlockBodyJSON)
    (h : data.eth1Data = none) :
    ∀ b, unpackETH1Data data b = (b, some "ETH1 data missing") := by
  intro b
  simp [unpackETH1Data, h]

theorem unpackGraffiti_ok (data : blindedBeaconBlockBodyJSON) {g : List Nat}
    (h1 : data.graffiti ≠ [])
    (h2 : hexDecode (trimPrefix0x data.graffiti) = .ok g)
    (h3 : g.length = GraffitiLength) :
    ∀ b, unpackGraffiti data b = ({ b with graffiti := g }, none) := by
  intro b
  simp [unpackGraffiti, h1, h2, h3]

theorem unpackGraffiti_missing (data : blindedBeaconBlockBodyJSON)
    (h : data.graffiti = []) :
    ∀ b, unpackGraffiti data b = (b, some "graffiti missing") := by
  intro b
  simp [unpackGraffiti, h]

theorem unpackGraffiti_badlen (data : blindedBeaconBlockBodyJSON) {g : List Nat}
    (h1 : data.graffiti ≠ [])
    (h2 : hexDecode (trimPrefix0x data.graffiti) = .ok g)
    (h3 : g.length ≠ GraffitiLength) :
    ∀ b, unpackGraffiti data b = (b, some "incorrect length for graffiti") := by
  intro b
  simp [unpackGraffiti, h1, h2, h3]

theorem unpackProposerSlashings_ok (data : blindedBeaconBlockBodyJSON)
    {l : List (Option ProposerSlashing)} (h : data.proposerSlashings = some l)
    (hl : AllSome l) :
    ∀ b, unpackProposerSlashings data b = ({ b with proposerSlashings := some l }, none) := by
  intro b
  simp [unpackProposerSlashings, h, entriesCheck_none "proposer slashings" 0 hl]

theorem unpackProposerSlashings_missing (data : blindedBeaconBlockBodyJSON)
    (h : data.proposerSlashings = none) :
    ∀ b, unpackProposerSlashings data b = (b, some "proposer slashings missing") := by
  intro b
  simp [unpackProposerSlashings, h]

theorem unpackProposerSlashings_entry (data : blindedBeaconBlockBodyJSON)
    {l : List (Option ProposerSlashing)} {i : Nat}
    (h : data.proposerSlashings = some l) (hl : FirstNoneAt l i) :
    ∀ b, unpackProposerSlashings data b =
      (b, some ("proposer slashings entry " ++ toString i ++ " missing")) := by
  have hec := entriesCheck_firstNone "proposer slashings" hl 0
  rw [Nat.zero_add] at hec
  intro b
  simp [unpackProposerSlashings, h, hec]

theorem unpackAttesterSlashings_ok (data : blindedBeaconBlockBodyJSON)
    {l : List (Option AttesterSlashing)} (h : data.attesterSlashings = some l)
    (hl : AllSome l) :
    ∀ b, unpackAttesterSlashings data b = ({ b with attesterSlashings := some l }, none) := by
  intro b
  simp [unpackAttesterSlashings, h, entriesCheck_none "attester slashings" 0 hl]

theorem unpackAttesterSlashings_missing (data : blindedBeaconBlockBodyJSON)
    (h : data.attesterSlashings = none) :
    ∀ b, unpackAttesterSlashings data b = (b, some "attester slashings missing") := by
  intro b
  simp [unpackAttesterSlashings, h]

theorem unpackAttesterSlashings_entry (data : blindedBeaconBlockBodyJSON)
    {l : List (Option AttesterSlashing)} {i : Nat}
    (h : data.attesterSlashings = some l) (hl : FirstNoneAt l i) :
    ∀ b, unpackAttesterSlashings data b =
      (b, some ("attester slashings entry " ++ toString i ++ " missing")) := by
  have hec := entriesCheck_firstNone "attester slashings" hl 0
  rw [Nat.zero_add] at hec
  intro b
  simp [unpackAttesterSlashings, h, hec]

theorem unpackAttestations_ok (data : blindedBeaconBlockBodyJSON)
    {l : List (Option Attestation)} (h : data.attestations = some l)
    (hl : AllSome l) :
    ∀ b, unpackAttestations data b = ({ b with attestations := some l }, none) := by
  intro b
  simp [unpackAttestations, h, entriesCheck_none "attestations" 0 hl]

theorem unpackAttestations_missing (data : blindedBeaconBlockBodyJSON)
    (h : data.attestations = none) :
    ∀ b, unpackAttestations data b = (b, some "attestations missing") := by
  intro b
  simp [unpackAttestations, h]

theorem unpackAttestations_entry (data : blindedBeaconBlockBodyJSON)
    {l : List (Option Attestation)} {i : Nat}
    (h : data.attestations = some l) (hl : FirstNoneAt l i) :
    ∀ b, unpackAttestations data b =
      (b, some ("attestations entry " ++ toString i ++ " missing")) := by
  have hec := entriesCheck_firstNone "attestations" hl 0
  rw [Nat.zero_add] at hec
  intro b
  simp [unpackAttestations, h, hec]

theorem unpackDeposits_ok (data : blindedBeaconBlockBodyJSON)
    {l : List (Option Deposit)} (h : data.deposits = some l) (hl : AllSome l) :
    ∀ b, unpackDeposits data b = ({ b with deposits := some l }, none) := by
  intro b
  simp [unpackDeposits, h, entriesCheck_none "deposits" 0 hl]

theorem unpackDeposits_missing (data : blindedBeaconBlockBodyJSON)
    (h : data.deposits = none) :
    ∀ b, unpackDeposits data b = (b, some "deposits missing") := by
  intro b
  simp [unpackDeposits, h]

theorem unpackDeposits_entry (data : blindedBeaconBlockBodyJSON)
    {l : List (Option Deposit)} {i : Nat}
    (h : data.deposits = some l) (hl : FirstNoneAt l i) :
    ∀ b, unpackDeposits data b =
      (b, some ("deposits entry " ++ toString i ++ " missing")) := by
  have hec := entriesCheck_firstNone "deposits" hl 0
  rw [Nat.zero_add] at hec
  intro b
  simp [unpackDeposits, h, hec]

theorem unpackVoluntaryExits_ok (data : blindedBeaconBlockBodyJSON)
    {l : List (Option SignedVoluntaryExit)} (h : data.voluntaryExits = some l)
    (hl : AllSome l) :
    ∀ b, unpackVoluntaryExits data b = ({ b with voluntaryExits := some l }, none) := by
  intro b
  simp [unpackVoluntaryExits, h, entriesCheck_none "voluntary exits" 0 hl]

theorem unpackVoluntaryExits_missing (data : blindedBeaconBlockBodyJSON)
    (h : data.voluntaryExits = none) :
    ∀ b, unpackVoluntaryExits data b = (b, some "voluntary exits missing") := by
  intro b
  simp [unpackVoluntaryExits, h]

theorem unpackVoluntaryExits_entry (data : blindedBeaconBlockBodyJSON)
    {l : List (Option SignedVoluntaryExit)} {i : Nat}
    (h : data.voluntaryExits = some l) (hl : FirstNoneAt l i) :
    ∀ b, unpackVoluntaryExits data b =
      (b, some ("voluntary exits entry " ++ toString i ++ " missing")) := by
  have hec := entriesCheck_firstNone "voluntary exits" hl 0
  rw [Nat.zero_add] at hec
  intro b
  simp [unpackVoluntaryExits, h, hec]

theorem unpackSyncAggregate_ok (data : blindedBeaconBlockBodyJSON) {sa : SyncAggregate}
    (h : data.syncAggregate = some sa) :
    ∀ b, unpackSyncAggregate data b = ({ b with syncAggregate := some sa }, none) := by
  intro b
  simp [unpackSyncAggregate, h]

theorem unpackSyncAggregate_missing (data : blindedBeaconBlockBodyJSON)
    (h : data.syncAggregate = none) :
    ∀ b, unpackSyncAggregate data b = (b, some "sync aggregate missing") := by
  intro b
  simp [unpackSyncAggregate, h]

theorem unpackExecutionPayloadHeader_ok (data : blindedBeaconBlockBodyJSON)
    {eph : ExecutionPayloadHeader} (h : data.executionPayloadHeader = some eph) :
    ∀ b, unpackExecutionPayloadHeader data b =
      ({ b with executionPayloadHeader := some eph }, none) := by
  intro b
  simp [unpackExecutionPayloadHeader, h]

theorem unpackExecutionPayloadHeader_missing (data : blindedBeaconBlockBodyJSON)
    (h : data.executionPayloadHeader = none) :
    ∀ b, unpackExecutionPayloadHeader data b =
      (b, some "execution payload header missing") := by
  intro b
  simp [unpackExecutionPayloadHeader, h]

theorem unpackBLSToExecutionChanges_default (data : blindedBeaconBlockBodyJSON)
    (h : data.blsToExecutionChanges = none) :
    ∀ b, unpackBLSToExecutionChanges data b =
      ({ b with blsToExecutionChanges := some [] }, none) := by
  intro b
  simp [unpackBLSToExecutionChanges, h]

theorem unpackBLSToExecutionChanges_ok (data : blindedBeaconBlockBodyJSON)
    {l : List (Option SignedBLSToExecutionChange)}
    (h : data.blsToExecutionChanges = some l) (hl : AllSome l) :
    ∀ b, unpackBLSToExecutionChanges data b =
      ({ b with blsToExecutionChanges := some l }, none) := by
  intro b
  simp [unpackBLSToExecutionChanges, h, entriesCheck_none "bls to execution changes" 0 hl]

theorem unpackBLSToExecutionChanges_entry (data : blindedBeaconBlockBodyJSON)
    {l : List (Option SignedBLSToExecutionChange)} {i : Nat}
    (h : data.blsToExecutionChanges = some l) (hl : FirstNoneAt l i) :
    ∀ b, unpackBLSToExecutionChanges data b =
      (b, some ("bls to execution changes entry " ++ toString i ++ " missing")) := by
  have hec := entriesCheck_firstNone "bls to execution changes" hl 0
  rw [Nat.zero_add] at hec
  intro b
  simp [unpackBLSToExecutionChanges, h, hec]

theorem unpackBlobKZGCommitments_ok (data : blindedBeaconBlockBodyJSON)
    {l : List (List Char)} {ks : List (List Nat)}
    (h : data.blobKZGCommitments = some l) (h2 : ∀ s ∈ l, s ≠ [])
    (h3 : decodeKZGCommitments l = (ks, none)) :
    ∀ b, unpackBlobKZGCommitments data b =
      ({ b with blobKZGCommitments := some ks }, none) := by
  intro b
  simp [unpackBlobKZGCommitments, h, emptyEntriesCheck_none "blob KZG commitments" 0 h2, h3]

theorem unpackBlobKZGCommitments_missing (data : blindedBeaconBlockBodyJSON)
    (h : data.blobKZGCommitments = none) :
    ∀ b, unpackBlobKZGCommitments data b = (b, some "blob KZG commitments missing") := by
  intro b
  simp [unpackBlobKZGCommitments, h]

theorem unpackBlobKZGCommitments_err (data : blindedBeaconBlockBodyJSON)
    {l : List (List Char)} {ks : List (List Nat)} {e : String}
    (h : data.blobKZGCommitments = some l) (h2 : ∀ s ∈ l, s ≠ [])
    (h3 : decodeKZGCommitments l = (ks, some e)) :
    ∀ b, unpackBlobKZGCommitments data b =
      ({ b with blobKZGCommitments := some ks }, some e) := by
  intro b
  simp [unpackBlobKZGCommitments, h, emptyEntriesCheck_none "blob KZG commitments" 0 h2, h3]

theorem unpackExecutionRequests_ok (data : blindedBeaconBlockBodyJSON)
    {er : ExecutionRequests} (h : data.executionRequests = some er) :
    ∀ b, unpackExecutionRequests data b = ({ b with executionRequests := some er }, none) := by
  intro b
  simp [unpackExecutionRequests, h]

theorem unpackExecutionRequests_missing (data : blindedBeaconBlockBodyJSON)
    (h : data.executionRequests = none) :
    ∀ b, unpackExecutionRequests data b = (b, some "execution requests missing") := by
  intro b
  simp [unpackExecutionRequests, h]

end Eth2

namespace Eth2

/-! ## SignedBeaconBlock.unpack evaluation lemmas -/

theorem SignedBeaconBlock.unpack_ok (data : signedBeaconBlockJSON)
    {m : BeaconBlock} {sig : List Nat}
    (h1 : data.message = some m) (h2 : data.signature ≠ [])
    (h3 : hexDecode (trimPrefix0x data.signature) = .ok sig)
    (h4 : sig.length = SignatureLength) :
    ∀ s : SignedBeaconBlock,
      s.unpack data = ({ message := some m, signature := sig }, none) := by
  intro s
  simp [SignedBeaconBlock.unpack, h1, h2, h3, h4]

theorem SignedBeaconBlock.unpack_msgMissing (data : signedBeaconBlockJSON)
    (h : data.message = none) :
    ∀ s : SignedBeaconBlock, s.unpack data = (s, some "message missing") := by
  intro s
  simp [SignedBeaconBlock.unpack, h]

theorem SignedBeaconBlock.unpack_sigMissing (data : signedBeaconBlockJSON)
    {m : BeaconBlock} (h1 : data.message = some m) (h2 : data.signature = []) :
    ∀ s : SignedBeaconBlock,
      s.unpack data = ({ s with message := some m }, some "signature missing") := by
  intro s
  simp [SignedBeaconBlock.unpack, h1, h2]

theorem SignedBeaconBlock.unpack_badlen (data : signedBeaconBlockJSON)
    {m : BeaconBlock} {sig : List Nat}
    (h1 : data.message = some m) (h2 : data.signature ≠ [])
    (h3 : hexDecode (trimPrefix0x data.signature) = .ok sig)
    (h4 : sig.length ≠ SignatureLength) :
    ∀ s : SignedBeaconBlock, s.unpack data = ({ s with message := some m },
      some ("incorrect length " ++ toString sig.length ++ " for signature")) := by
  intro s
  simp [SignedBeaconBlock.unpack, h1, h2, h3, h4]

theorem SignedBeaconBlock.unpack_badhex (data : signedBeaconBlockJSON)
    {m : BeaconBlock} {e : String}
    (h1 : data.message = some m) (h2 : data.signature ≠ [])
    (h3 : hexDecode (trimPrefix0x data.signature) = .error e) :
    ∀ s : SignedBeaconBlock, s.unpack data = ({ s with message := some m },
      some ("invalid value for signature: " ++ e)) := by
  intro s
  simp [SignedBeaconBlock.unpack, h1, h2, h3]

/-! ## Uppercase 0X prefix facts -/

theorem trimPrefix0x_upper (l : List Char) :
    trimPrefix0x ('0' :: 'X' :: l) = '0' :: 'X' :: l := by
  have ht : ('0' :: 'X' :: l).take 2 = ['0', 'X'] := rfl
  have hcond : ¬ (('0' :: 'X' :: l).take 2 = ['0', 'x']) := by
    rw [ht]
    intro hc
    exact absurd hc (by decide)
  simp only [trimPrefix0x]
  rw [if_neg hcond]

theorem hexDecode_upperX (l : List Char) :
    hexDecode ('0' :: 'X' :: l) = .error "encoding/hex: invalid byte" := by
  have h0 : fromHexChar '0' = some 0 := by decide
  have hX : fromHexChar 'X' = none := by decide
  simp [hexDecode, h0, hX]

/-! ## Receiver-field preservation: every stage other than the last leaves
`executionRequests` untouched, whatever branch it takes -/

theorem unpackRANDAOReveal_pres (data : blindedBeaconBlockBodyJSON) :
    ∀ b, ((unpackRANDAOReveal data b).1).executionRequests = b.executionRequests := by
  intro b
  unfold unpackRANDAOReveal
  (repeat' split) <;> rfl

theorem unpackETH1Data_pres (data : blindedBeaconBlockBodyJSON) :
    ∀ b, ((unpackETH1Data data b).1).executionRequests = b.executionRequests := by
  intro b
  unfold unpackETH1Data
  (repeat' split) <;> rfl

theorem unpackGraffiti_pres (data : blindedBeaconBlockBodyJSON) :
    ∀ b, ((unpackGraffiti data b).1).executionRequests = b.executionRequests := by
  intro b
  unfold unpackGraffiti
  (repeat' split) <;> rfl

theorem unpackProposerSlashings_pres (data : blindedBeaconBlockBodyJSON) :
    ∀ b, ((unpackProposerSlashings data b).1).executionRequests = b.executionRequests := by
  intro b
  unfold unpackProposerSlashings
  (repeat' split) <;> rfl

theorem unpackAttesterSlashings_pres (data : blindedBeaconBlockBodyJSON) :
    ∀ b, ((unpackAttesterSlashings data b).1).executionRequests = b.executionRequests := by
  intro b
  unfold unpackAttesterSlashings
  (repeat' split) <;> rfl

theorem unpackAttestations_pres (data : blindedBeaconBlockBodyJSON) :
    ∀ b, ((unpackAttestations data b).1).executionRequests = b.executionRequests := by
  intro b
  unfold unpackAttestations
  (repeat' split) <;> rfl

theorem unpackDeposits_pres (data : blindedBeaconBlockBodyJSON) :
    ∀ b, ((unpackDeposits data b).1).executionRequests = b.executionRequests := by
  intro b
  unfold unpackDeposits
  (repeat' split) <;> rfl

theorem unpackVoluntaryExits_pres (data : blindedBeaconBlockBodyJSON) :
    ∀ b, ((unpackVoluntaryExits data b).1).executionRequests = b.executionRequests := by
  intro b
  unfold unpackVoluntaryExits
  (repeat' split) <;> rfl

theorem unpackSyncAggregate_pres (data : blindedBeaconBlockBodyJSON) :
    ∀ b, ((unpackSyncAggregate data b).1).executionRequests = b.executionRequests := by
  intro b
  unfold unpackSyncAggregate
  (repeat' split) <;> rfl

theorem unpackExecutionPayloadHeader_pres (data : blindedBeaconBlockBodyJSON) :
    ∀ b, ((unpackExecutionPayloadHeader data b).1).executionRequests = b.executionRequests := by
  intro b
  unfold unpackExecutionPayloadHeader
  (repeat' split) <;> rfl

theorem unpackBLSToExecutionChanges_pres (data : blindedBeaconBlockBodyJSON) :
    ∀ b, ((unpackBLSToExecutionChanges data b).1).executionRequests = b.executionRequests := by
  intro b
  unfold unpackBLSToExecutionChanges
  (repeat' split) <;> rfl

theorem unpackBlobKZGCommitments_pres (data : blindedBeaconBlockBodyJSON) :
    ∀ b, ((unpackBlobKZGCommitments data b).1).executionRequests = b.executionRequests := by
  intro b
  unfold unpackBlobKZGCommitments
  (repeat' split) <;> rfl

theorem unpackExecutionRequests_errPres (data : blindedBeaconBlockBodyJSON) :
    ∀ b, ((unpackExecutionRequests data b).2).isSome →
      ((unpackExecutionRequests data b).1).executionRequests = b.executionRequests := by
  intro b h
  cases hd : data.executionRequests with
  | none => rw [unpackExecutionRequests_missing data hd]
  | some r => rw [unpackExecutionRequests_ok data hd] at h; simp at h

theorem errPres_step
    (sf k : BlindedBeaconBlockBody → BlindedBeaconBlockBody × Option String)
    (hs : ∀ b, ((sf b).1).executionRequests = b.executionRequests)
    (hk : ∀ b, ((k b).2).isSome → ((k b).1).executionRequests = b.executionRequests)
    (b : BlindedBeaconBlockBody) (h : ((andThen (sf b) k).2).isSome) :
    ((andThen (sf b) k).1).executionRequests = b.executionRequests := by
  have hs' := hs b
  rcases hsb : sf b with ⟨b1, err⟩
  rw [hsb] at hs' h
  cases err with
  | none =>
    have h1 : andThen (b1, none) k = k b1 := rfl
    rw [h1] at h
    rw [h1, hk b1 h]
    exact hs'
  | some e =>
    exact hs'

/-! ## Stage success inversions (success of a stage forces presence of its
field in the wire data) -/

theorem unpackRANDAOReveal_inv (data : blindedBeaconBlockBodyJSON)
    (b : BlindedBeaconBlockBody) (h : (unpackRANDAOReveal data b).2 = none) :
    data.randaoReveal ≠ [] := by
  intro hc
  rw [unpackRANDAOReveal_missing data hc] at h
  simp at h

theorem unpackETH1Data_inv (data : blindedBeaconBlockBodyJSON)
    (b : BlindedBeaconBlockBody) (h : (unpackETH1Data data b).2 = none) :
    (data.eth1Data).isSome := by
  cases hd : data.eth1Data with
  | none => rw [unpackETH1Data_missing data hd] at h; simp at h
  | some e => simp

theorem unpackGraffiti_inv (data : blindedBeaconBlockBodyJSON)
    (b : BlindedBeaconBlockBody) (h : (unpackGraffiti data b).2 = none) :
    data.graffiti ≠ [] := by
  intro hc
  rw [unpackGraffiti_missing data hc] at h
  simp at h

theorem unpackProposerSlashings_inv (data : blindedBeaconBlockBodyJSON)
    (b : BlindedBeaconBlockBody) (h : (unpackProposerSlashings data b).2 = none) :
    (data.proposerSlashings).isSome := by
  cases hd : data.proposerSlashings with
  | none => rw [unpackProposerSlashings_missing data hd] at h; simp at h
  | some l => simp

theorem unpackAttesterSlashings_inv (data : blindedBeaconBlockBodyJSON)
    (b : BlindedBeaconBlockBody) (h : (unpackAttesterSlashings data b).2 = none) :
    (data.attesterSlashings).isSome := by
  cases hd : data.attesterSlashings with
  | none => rw [unpackAttesterSlashings_missing data hd] at h; simp at h
  | some l => simp

theorem unpackAttestations_inv (data : blindedBeaconBlockBodyJSON)
    (b : BlindedBeaconBlockBody) (h : (unpackAttestations data b).2 = none) :
    (data.attestations).isSome := by
  cases hd : data.attestations with
  | none => rw [unpackAttestations_missing data hd] at h; simp at h
  | some l => simp

theorem unpackDeposits_inv (data : blindedBeaconBlockBodyJSON)
    (b : BlindedBeaconBlockBody) (h : (unpackDeposits data b).2 = none) :
    (data.deposits).isSome := by
  cases hd : data.deposits with
  | none => rw [unpackDeposits_missing data hd] at h; simp at h
  | some l => simp

theorem unpackVoluntaryExits_inv (data : blindedBeaconBlockBodyJSON)
    (b : BlindedBeaconBlockBody) (h : (unpackVoluntaryExits data b).2 = none) :
    (data.voluntaryExits).isSome := by
  cases hd : data.voluntaryExits with
  | none => rw [unpackVoluntaryExits_missing data hd] at h; simp at h
  | some l => simp

theorem unpackSyncAggregate_inv (data : blindedBeaconBlockBodyJSON)
    (b : BlindedBeaconBlockBody) (h : (unpackSyncAggregate data b).2 = none) :
    (data.syncAggregate).isSome := by
  cases hd : data.syncAggregate with
  | none => rw [unpackSyncAggregate_missing data hd] at h; simp at h
  | some sa => simp

theorem unpackExecutionPayloadHeader_inv (data : blindedBeaconBlockBodyJSON)
    (b : BlindedBeaconBlockBody) (h : (unpackExecutionPayloadHeader data b).2 = none) :
    (data.executionPayloadHeader).isSome := by
  cases hd : data.executionPayloadHeader with
  | none => rw [unpackExecutionPayloadHeader_missing data hd] at h; simp at h
  | some eph => simp

theorem unpackBlobKZGCommitments_inv (data : blindedBeaconBlockBodyJSON)
    (b : BlindedBeaconBlockBody) (h : (unpackBlobKZGCommitments data b).2 = none) :
    (data.blobKZGCommitments).isSome := by
  cases hd : data.blobKZGCommitments with
  | none => rw [unpackBlobKZGCommitments_missing data hd] at h; simp at h
  | some l => simp

theorem unpackExecutionRequests_inv (data : blindedBeaconBlockBodyJSON)
    (b : BlindedBeaconBlockBody) (h : (unpackExecutionRequests data b).2 = none) :
    (data.executionRequests).isSome := by
  cases hd : data.executionRequests with
  | none => rw [unpackExecutionRequests_missing data hd] at h; simp at h
  | some r => simp

end Eth2

namespace Eth2

/-! ## Full-unpack success characterization -/

theorem unpack_all_ok (data : blindedBeaconBlockBodyJSON) (b : BlindedBeaconBlockBody)
    {r g : List Nat} {e : ETH1Data}
    {lps : List (Option ProposerSlashing)} {las : List (Option AttesterSlashing)}
    {lat : List (Option Attestation)} {ldp : List (Option Deposit)}
    {lve : List (Option SignedVoluntaryExit)} {sa : SyncAggregate}
    {eph : ExecutionPayloadHeader} {lbls : List (Option SignedBLSToExecutionChange)}
    {lkzg : List (List Char)} {ks : List (List Nat)} {er : ExecutionRequests}
    (h1 : data.randaoReveal ≠ [])
    (h2 : hexDecode (trimPrefix0x data.randaoReveal) = .ok r)
    (h3 : r.length = SignatureLength)
    (h4 : data.eth1Data = some e)
    (h5 : data.graffiti ≠ [])
    (h6 : hexDecode (trimPrefix0x data.graffiti) = .ok g)
    (h7 : g.length = GraffitiLength)
    (h8 : data.proposerSlashings = some lps) (h9 : AllSome lps)
    (h10 : data.attesterSlashings = some las) (h11 : AllSome las)
    (h12 : data.attestations = some lat) (h13 : AllSome lat)
    (h14 : data.deposits = some ldp) (h15 : AllSome ldp)
    (h16 : data.voluntaryExits = some lve) (h17 : AllSome lve)
    (h18 : data.syncAggregate = some sa)
    (h19 : data.executionPayloadHeader = some eph)
    (h20 : data.blsToExecutionChanges = some lbls) (h21 : AllSome lbls)
    (h22 : data.blobKZGCommitments = some lkzg) (h23 : ∀ s ∈ lkzg, s ≠ [])
    (h24 : decodeKZGCommitments lkzg = (ks, none))
    (h25 : data.executionRequests = some er) :
    b.unpack data =
      ({ randaoReveal := r, eth1Data := some e, graffiti := g,
         proposerSlashings := some lps, attesterSlashings := some las,
         attestations := some lat, deposits := some ldp,
         voluntaryExits := some lve, syncAggregate := some sa,
         executionPayloadHeader := some eph, blsToExecutionChanges := some lbls,
         blobKZGCommitments := some ks, executionRequests := some er }, none) := by
  simp only [BlindedBeaconBlockBody.unpack,
    unpackRANDAOReveal_ok data h1 h2 h3, andThen_ok,
    unpackETH1Data_ok data h4,
    unpackGraffiti_ok data h5 h6 h7,
    unpackProposerSlashings_ok data h8 h9,
    unpackAttesterSlashings_ok data h10 h11,
    unpackAttestations_ok data h12 h13,
    unpackDeposits_ok data h14 h15,
    unpackVoluntaryExits_ok data h16 h17,
    unpackSyncAggregate_ok data h18,
    unpackExecutionPayloadHeader_ok data h19,
    unpackBLSToExecutionChanges_ok data h20 h21,
    unpackBlobKZGCommitments_ok data h22 h23 h24,
    unpackExecutionRequests_ok data h25]

theorem unpack_all_blsDefault (data : blindedBeaconBlockBodyJSON)
    (b : BlindedBeaconBlockBody)
    {r g : List Nat} {e : ETH1Data}
    {lps : List (Option ProposerSlashing)} {las : List (Option AttesterSlashing)}
    {lat : List (Option Attestation)} {ldp : List (Option Deposit)}
    {lve : List (Option SignedVoluntaryExit)} {sa : SyncAggregate}
    {eph : ExecutionPayloadHeader}
    {lkzg : List (List Char)} {ks : List (List Nat)} {er : ExecutionRequests}
    (h1 : data.randaoReveal ≠ [])
    (h2 : hexDecode (trimPrefix0x data.randaoReveal) = .ok r)
    (h3 : r.length = SignatureLength)
    (h4 : data.eth1Data = some e)
    (h5 : data.graffiti ≠ [])
    (h6 : hexDecode (trimPrefix0x data.graffiti) = .ok g)
    (h7 : g.length = GraffitiLength)
    (h8 : data.proposerSlashings = some lps) (h9 : AllSome lps)
    (h10 : data.attesterSlashings = some las) (h11 : AllSome las)
    (h12 : data.attestations = some lat) (h13 : AllSome lat)
    (h14 : data.deposits = some ldp) (h15 : AllSome ldp)
    (h16 : data.voluntaryExits = some lve) (h17 : AllSome lve)
    (h18 : data.syncAggregate = some sa)
    (h19 : data.executionPayloadHeader = some eph)
    (h20 : data.blsToExecutionChanges = none)
    (h22 : data.blobKZGCommitments = some lkzg) (h23 : ∀ s ∈ lkzg, s ≠ [])
    (h24 : decodeKZGCommitments lkzg = (ks, none))
    (h25 : data.executionRequests = some er) :
    b.unpack data =
      ({ randaoReveal := r, eth1Data := some e, graffiti := g,
         proposerSlashings := some lps, attesterSlashings := some las,
         attestations := some lat, deposits := some ldp,
         voluntaryExits := some lve, syncAggregate := some sa,
         executionPayloadHeader := some eph, blsToExecutionChanges := some [],
         blobKZGCommitments := some ks, executionRequests := some er }, none) := by
  simp only [BlindedBeaconBlockBody.unpack,
    unpackRANDAOReveal_ok data h1 h2 h3, andThen_ok,
    unpackETH1Data_ok data h4,
    unpackGraffiti_ok data h5 h6 h7,
    unpackProposerSlashings_ok data h8 h9,
    unpackAttesterSlashings_ok data h10 h11,
    unpackAttestations_ok data h12 h13,
    unpackDeposits_ok data h14 h15,
    unpackVoluntaryExits_ok data h16 h17,
    unpackSyncAggregate_ok data h18,
    unpackExecutionPayloadHeader_ok data h19,
    unpackBLSToExecutionChanges_default data h20,
    unpackBlobKZGCommitments_ok data h22 h23 h24,
    unpackExecutionRequests_ok data h25]

/-! ## Marshal-then-unpack round trips -/

theorem goHexFmt_all_ne_nil (lkzg : List (List Nat)) :
    ∀ s ∈ lkzg.map goHexFmt, s ≠ [] := by
  intro s hs
  rcases List.mem_map.mp hs with ⟨c, hc, rfl⟩
  exact goHexFmt_ne_nil c

theorem roundTripBody (o b : BlindedBeaconBlockBody) (ho : WFBody o) :
    b.unpack o.MarshalJSON = (o, none) := by
  obtain ⟨hr1, hr2, heS, hg1, hg2, hps1, hps2, has1, has2, hat1, hat2, hdp1, hdp2,
    hve1, hve2, hsaS, hephS, hblsS, hbls2, hkzg1, hkzg2, herS⟩ := ho
  obtain ⟨e, he⟩ := Option.isSome_iff_exists.mp heS
  obtain ⟨lps, hps⟩ := Option.isSome_iff_exists.mp hps1
  obtain ⟨las, has⟩ := Option.isSome_iff_exists.mp has1
  obtain ⟨lat, hat⟩ := Option.isSome_iff_exists.mp hat1
  obtain ⟨ldp, hdp⟩ := Option.isSome_iff_exists.mp hdp1
  obtain ⟨lve, hve⟩ := Option.isSome_iff_exists.mp hve1
  obtain ⟨sa, hsa⟩ := Option.isSome_iff_exists.mp hsaS
  obtain ⟨eph, heph⟩ := Option.isSome_iff_exists.mp hephS
  obtain ⟨lbls, hbls⟩ := Option.isSome_iff_exists.mp hblsS
  obtain ⟨lkzg, hkzg⟩ := Option.isSome_iff_exists.mp hkzg1
  obtain ⟨er, her⟩ := Option.isSome_iff_exists.mp herS
  rw [hps] at hps2
  rw [has] at has2
  rw [hat] at hat2
  rw [hdp] at hdp2
  rw [hve] at hve2
  rw [hbls] at hbls2
  rw [hkzg] at hkzg2
  simp only [Option.getD_some] at hps2 has2 hat2 hdp2 hve2 hbls2 hkzg2
  have hkm : (o.MarshalJSON).blobKZGCommitments = some (lkzg.map goHexFmt) := by
    simp [BlindedBeaconBlockBody.MarshalJSON, hkzg]
  have key := unpack_all_ok (o.MarshalJSON) b
    (goHexFmt_ne_nil o.randaoReveal)
    (hexDecode_trim_goHexFmt o.randaoReveal hr2)
    hr1
    he
    (goHexFmt_ne_nil o.graffiti)
    (hexDecode_trim_goHexFmt o.graffiti hg2)
    hg1
    hps hps2 has has2 hat hat2 hdp hdp2 hve hve2 hsa heph hbls hbls2
    hkm
    (goHexFmt_all_ne_nil lkzg)
    (decodeKZGCommitments_map_goHexFmt hkzg2)
    her
  rw [key, ← he, ← hps, ← has, ← hat, ← hdp, ← hve, ← hsa, ← heph, ← hbls,
    ← hkzg, ← her]

theorem roundTripSigned (sb s : SignedBeaconBlock) (hs : WFSigned sb) :
    s.unpack sb.MarshalJSON = (sb, none) := by
  obtain ⟨hmS, hl, hb⟩ := hs
  obtain ⟨m, hm⟩ := Option.isSome_iff_exists.mp hmS
  have key := SignedBeaconBlock.unpack_ok (sb.MarshalJSON) hm
    (goHexFmt_ne_nil sb.signature)
    (hexDecode_trim_goHexFmt sb.signature hb)
    hl s
  rw [key, ← hm]

end Eth2

namespace Eth2

/-! ## Claim theorems -/

/-- C1: JSON round trip.  For every well-formed domain object — a
`BlindedBeaconBlockBody` with all mandatory fields populated and byte fields
of their spec lengths, and likewise a `SignedBeaconBlock` — unpacking the
wire shape produced by `MarshalJSON` succeeds and yields an object equal
field for field to the original, whatever the prior receiver state. -/
theorem C1_json_round_trip (o : BlindedBeaconBlockBody) (sb : SignedBeaconBlock)
    (b : BlindedBeaconBlockBody) (s : SignedBeaconBlock)
    (ho : WFBody o) (hs : WFSigned sb) :
    b.unpack o.MarshalJSON = (o, none) ∧ s.unpack sb.MarshalJSON = (sb, none) :=
  ⟨roundTripBody o b ho, roundTripSigned sb s hs⟩

theorem C1_json_round_trip_witness :
    WFBody exBody ∧ WFSigned exSigned ∧
      (emptyBody.unpack exBody.MarshalJSON = (exBody, none) ∧
        emptySigned.unpack exSigned.MarshalJSON = (exSigned, none)) :=
  ⟨by decide, by decide,
    C1_json_round_trip exBody exSigned emptyBody emptySigned (by decide) (by decide)⟩

/-- C2 counterexample: a failed `unpack` does not leave the receiver
unchanged.  On a document whose RANDAO reveal is valid but whose ETH1 data
is missing, `unpack` returns an error, yet the receiver differs from its
prior state: the decoded RANDAO reveal was already written into it.
Moreover the failing field itself can be overwritten: on a document whose
only invalid field is a 47-byte blob KZG commitment, the error is returned
with the receiver's commitments field changed from nil to the
pre-allocated zero-filled slice. -/
theorem C2_decode_atomicity_counterexample :
    (((emptyBody.unpack c2Data).2).isSome ∧
        (emptyBody.unpack c2Data).1 ≠ emptyBody) ∧
      (((emptyBody.unpack c2DataBlob).2).isSome ∧
        ((emptyBody.unpack c2DataBlob).1).blobKZGCommitments = some [zeros48] ∧
        emptyBody.blobKZGCommitments = none) := by
  decide

/-- C2 (amended): a failed `unpack` returns only an error, never a
validated object, and the final field `executionRequests` keeps its prior
value on every failure (stages after the failing field never run, and the
last stage writes nothing when it fails).  But the receiver is not left
unchanged: fields validated before the failure have already been written
(the decoded RANDAO reveal is stored before the missing ETH1 data is
detected), and the failing field itself may be partially overwritten (the
blob commitments field is assigned its pre-allocated zero-filled slice
before the decode loop reports the bad entry). -/
theorem C2_decode_atomicity_amended (b : BlindedBeaconBlockBody)
    (data : blindedBeaconBlockBodyJSON) (h : ((b.unpack data).2).isSome) :
    ((b.unpack data).1).executionRequests = b.executionRequests ∧
      ((emptyBody.unpack c2Data).1).randaoReveal = List.replicate 96 1 ∧
      ((emptyBody.unpack c2DataBlob).1).blobKZGCommitments = some [zeros48] := by
  refine ⟨?_, by decide, by decide⟩
  unfold BlindedBeaconBlockBody.unpack at h ⊢
  refine errPres_step _ _ (unpackRANDAOReveal_pres data) ?_ b h
  intro b h
  refine errPres_step _ _ (unpackETH1Data_pres data) ?_ b h
  intro b h
  refine errPres_step _ _ (unpackGraffiti_pres data) ?_ b h
  intro b h
  refine errPres_step _ _ (unpackProposerSlashings_pres data) ?_ b h
  intro b h
  refine errPres_step _ _ (unpackAttesterSlashings_pres data) ?_ b h
  intro b h
  refine errPres_step _ _ (unpackAttestations_pres data) ?_ b h
  intro b h
  refine errPres_step _ _ (unpackDeposits_pres data) ?_ b h
  intro b h
  refine errPres_step _ _ (unpackVoluntaryExits_pres data) ?_ b h
  intro b h
  refine errPres_step _ _ (unpackSyncAggregate_pres data) ?_ b h
  intro b h
  refine errPres_step _ _ (unpackExecutionPayloadHeader_pres data) ?_ b h
  intro b h
  refine errPres_step _ _ (unpackBLSToExecutionChanges_pres data) ?_ b h
  intro b h
  refine errPres_step _ _ (unpackBlobKZGCommitments_pres data) ?_ b h
  intro b h
  exact unpackExecutionRequests_errPres data b h

theorem C2_decode_atomicity_amended_witness :
    ((emptyBody.unpack c2Data).2).isSome ∧
      ((emptyBody.unpack c2Data).1).executionRequests = emptyBody.executionRequests :=
  ⟨by decide, (C2_decode_atomicity_amended emptyBody c2Data (by decide)).1⟩

/-- C3 counterexample: an uppercase `0X` prefix is not accepted.  A signature
value written as `0X` followed by 192 valid hex digits fails to decode,
while the same value with a lowercase `0x` prefix succeeds. -/
theorem C3_hex_prefix_counterexample :
    (SignedBeaconBlock.unpack emptySigned
        { message := some ⟨0⟩,
          signature := '0' :: 'X' :: bytesToHex (List.replicate 96 0) }).2 ≠ none ∧
      (SignedBeaconBlock.unpack emptySigned
        { message := some ⟨0⟩,
          signature := '0' :: 'x' :: bytesToHex (List.replicate 96 0) }).2 = none := by
  decide

/-- C4: `SignedBlockContents.UnmarshalYAML` parses the YAML into the JSON
wire shape and returns exactly the result of the JSON unmarshal on that
shape (a parse error is returned wrapped, without touching the JSON path);
consequently, when the external YAML emitter/parser pair round-trips the
wire shape, `unmarshalYAML (marshalYAML o)` equals
`unmarshalJSON (marshalJSON o)`. -/
theorem C4_yaml_delegation
    (yamlParse : List Char → Except String signedBlockContentsJSON)
    (yamlEmit : signedBlockContentsYAML → List Char)
    (s o : SignedBlockContents) :
    (∀ (input : List Char) (shape : signedBlockContentsJSON),
        yamlParse input = .ok shape →
        SignedBlockContents.UnmarshalYAML yamlParse s input = s.UnmarshalJSON shape) ∧
    (∀ (input : List Char) (e : String), yamlParse input = .error e →
        SignedBlockContents.UnmarshalYAML yamlParse s input =
          (s, some ("failed to unmarshal YAML: " ++ e))) ∧
    (yamlParse (SignedBlockContents.MarshalYAML yamlEmit o) = .ok o.MarshalJSON →
        SignedBlockContents.UnmarshalYAML yamlParse s
            (SignedBlockContents.MarshalYAML yamlEmit o) =
          s.UnmarshalJSON o.MarshalJSON) := by
  refine ⟨?_, ?_, ?_⟩
  · intro input shape hp
    simp [SignedBlockContents.UnmarshalYAML, hp]
  · intro input e hp
    simp [SignedBlockContents.UnmarshalYAML, hp]
  · intro hp
    simp [SignedBlockContents.UnmarshalYAML, hp]

theorem C4_yaml_delegation_witness :
    exYamlParse (SignedBlockContents.MarshalYAML exYamlEmit exContents) =
        .ok exContents.MarshalJSON ∧
      SignedBlockContents.UnmarshalYAML exYamlParse exContents
          (SignedBlockContents.MarshalYAML exYamlEmit exContents) =
        exContents.UnmarshalJSON exContents.MarshalJSON :=
  ⟨rfl, (C4_yaml_delegation exYamlParse exYamlEmit exContents exContents).2.2 rfl⟩

end Eth2

namespace Eth2

/-- Unfolded form of `WFBody`: the witnesses of every `isSome` conjunct
together with the derived facts about the marshalled wire shape. -/
theorem WFBody_elim (o : BlindedBeaconBlockBody) (ho : WFBody o) :
    ∃ (e : ETH1Data) (lps : List (Option ProposerSlashing))
      (las : List (Option AttesterSlashing)) (lat : List (Option Attestation))
      (ldp : List (Option Deposit)) (lve : List (Option SignedVoluntaryExit))
      (sa : SyncAggregate) (eph : ExecutionPayloadHeader)
      (lbls : List (Option SignedBLSToExecutionChange))
      (lkzg : List (List Nat)) (er : ExecutionRequests),
      o.eth1Data = some e ∧
      o.proposerSlashings = some lps ∧ AllSome lps ∧
      o.attesterSlashings = some las ∧ AllSome las ∧
      o.attestations = some lat ∧ AllSome lat ∧
      o.deposits = some ldp ∧ AllSome ldp ∧
      o.voluntaryExits = some lve ∧ AllSome lve ∧
      o.syncAggregate = some sa ∧
      o.executionPayloadHeader = some eph ∧
      o.blsToExecutionChanges = some lbls ∧ AllSome lbls ∧
      o.blobKZGCommitments = some lkzg ∧
      (o.MarshalJSON).blobKZGCommitments = some (lkzg.map goHexFmt) ∧
      decodeKZGCommitments (lkzg.map goHexFmt) = (lkzg, none) ∧
      o.executionRequests = some er ∧
      o.randaoReveal.length = SignatureLength ∧
      hexDecode (trimPrefix0x (goHexFmt o.randaoReveal)) = .ok o.randaoReveal ∧
      o.graffiti.length = GraffitiLength ∧
      hexDecode (trimPrefix0x (goHexFmt o.graffiti)) = .ok o.graffiti := by
  obtain ⟨hr1, hr2, heS, hg1, hg2, hps1, hps2, has1, has2, hat1, hat2, hdp1, hdp2,
    hve1, hve2, hsaS, hephS, hblsS, hbls2, hkzg1, hkzg2, herS⟩ := ho
  obtain ⟨e, he⟩ := Option.isSome_iff_exists.mp heS
  obtain ⟨lps, hps⟩ := Option.isSome_iff_exists.mp hps1
  obtain ⟨las, has⟩ := Option.isSome_iff_exists.mp has1
  obtain ⟨lat, hat⟩ := Option.isSome_iff_exists.mp hat1
  obtain ⟨ldp, hdp⟩ := Option.isSome_iff_exists.mp hdp1
  obtain ⟨lve, hve⟩ := Option.isSome_iff_exists.mp hve1
  obtain ⟨sa, hsa⟩ := Option.isSome_iff_exists.mp hsaS
  obtain ⟨eph, heph⟩ := Option.isSome_iff_exists.mp hephS
  obtain ⟨lbls, hbls⟩ := Option.isSome_iff_exists.mp hblsS
  obtain ⟨lkzg, hkzg⟩ := Option.isSome_iff_exists.mp hkzg1
  obtain ⟨er, her⟩ := Option.isSome_iff_exists.mp herS
  rw [hps] at hps2
  rw [has] at has2
  rw [hat] at hat2
  rw [hdp] at hdp2
  rw [hve] at hve2
  rw [hbls] at hbls2
  rw [hkzg] at hkzg2
  simp only [Option.getD_some] at hps2 has2 hat2 hdp2 hve2 hbls2 hkzg2
  refine ⟨e, lps, las, lat, ldp, lve, sa, eph, lbls, lkzg, er,
    he, hps, hps2, has, has2, hat, hat2, hdp, hdp2, hve, hve2, hsa, heph,
    hbls, hbls2, hkzg, ?_, decodeKZGCommitments_map_goHexFmt hkzg2, her,
    hr1, hexDecode_trim_goHexFmt o.randaoReveal hr2, hg1,
    hexDecode_trim_goHexFmt o.graffiti hg2⟩
  simp [BlindedBeaconBlockBody.MarshalJSON, hkzg]

/-- C5: Fixed-length enforcement.  For each fixed-length byte field —
`randao_reveal` (96), `graffiti` (32), a blob KZG commitment (48) on the
blinded body, and `signature` (96) on the signed block — placing a hex
string of any other decoded length into an otherwise valid document makes
unpack fail with that field's incorrect-length error, while the exact
mandated length succeeds and stores the decoded bytes unmodified (never
truncated or padded). -/
theorem C5_fixed_length (o : BlindedBeaconBlockBody) (sb : SignedBeaconBlock)
    (b : BlindedBeaconBlockBody) (sr : SignedBeaconBlock)
    (ho : WFBody o) (hwsb : WFSigned sb)
    (s : List Char) (bs : List Nat)
    (hdec : hexDecode (trimPrefix0x s) = .ok bs) (hne : s ≠ []) :
    (bs.length ≠ SignatureLength →
      (b.unpack { o.MarshalJSON with randaoReveal := s }).2 =
        some "incorrect length for RANDAO reveal") ∧
    (bs.length = SignatureLength →
      (b.unpack { o.MarshalJSON with randaoReveal := s }).2 = none ∧
      ((b.unpack { o.MarshalJSON with randaoReveal := s }).1).randaoReveal = bs) ∧
    (bs.length ≠ GraffitiLength →
      (b.unpack { o.MarshalJSON with graffiti := s }).2 =
        some "incorrect length for graffiti") ∧
    (bs.length = GraffitiLength →
      (b.unpack { o.MarshalJSON with graffiti := s }).2 = none ∧
      ((b.unpack { o.MarshalJSON with graffiti := s }).1).graffiti = bs) ∧
    (bs.length ≠ KZGCommitmentLength →
      (b.unpack { o.MarshalJSON with blobKZGCommitments := some [s] }).2 =
        some "incorrect length for blob KZG commitment") ∧
    (bs.length = KZGCommitmentLength →
      (b.unpack { o.MarshalJSON with blobKZGCommitments := some [s] }).2 = none ∧
      ((b.unpack { o.MarshalJSON with blobKZGCommitments := some [s] }).1).blobKZGCommitments =
        some [bs]) ∧
    (bs.length ≠ SignatureLength →
      (sr.unpack { sb.MarshalJSON with signature := s }).2 =
        some ("incorrect length " ++ toString bs.length ++ " for signature")) ∧
    (bs.length = SignatureLength →
      (sr.unpack { sb.MarshalJSON with signature := s }).2 = none ∧
      ((sr.unpack { sb.MarshalJSON with signature := s }).1).signature = bs) := by
  obtain ⟨e, lps, las, lat, ldp, lve, sa, eph, lbls, lkzg, er, he, hps, hps2,
    has, has2, hat, hat2, hdp, hdp2, hve, hve2, hsa, heph, hbls, hbls2, hkzg,
    hkm, hdkc, her, hr1, hrd, hg1, hgd⟩ := WFBody_elim o ho
  obtain ⟨hmS, hsl, hsb2⟩ := hwsb
  obtain ⟨m, hm⟩ := Option.isSome_iff_exists.mp hmS
  refine ⟨?_, ?_, ?_, ?_, ?_, ?_, ?_, ?_⟩
  · intro hlen
    simp only [BlindedBeaconBlockBody.unpack,
      unpackRANDAOReveal_badlen ({ o.MarshalJSON with randaoReveal := s }) hne hdec hlen,
      andThen_err]
  · intro hlen
    have key := unpack_all_ok ({ o.MarshalJSON with randaoReveal := s }) b
      hne hdec hlen he (goHexFmt_ne_nil o.graffiti) hgd hg1
      hps hps2 has has2 hat hat2 hdp hdp2 hve hve2 hsa heph hbls hbls2
      hkm (goHexFmt_all_ne_nil lkzg) hdkc her
    exact ⟨by rw [key], by rw [key]⟩
  · intro hlen
    simp only [BlindedBeaconBlockBody.unpack,
      unpackRANDAOReveal_ok ({ o.MarshalJSON with graffiti := s })
        (goHexFmt_ne_nil o.randaoReveal) hrd hr1,
      andThen_ok,
      unpackETH1Data_ok ({ o.MarshalJSON with graffiti := s }) he,
      unpackGraffiti_badlen ({ o.MarshalJSON with graffiti := s }) hne hdec hlen,
      andThen_err]
  · intro hlen
    have key := unpack_all_ok ({ o.MarshalJSON with graffiti := s }) b
      (goHexFmt_ne_nil o.randaoReveal) hrd hr1 he hne hdec hlen
      hps hps2 has has2 hat hat2 hdp hdp2 hve hve2 hsa heph hbls hbls2
      hkm (goHexFmt_all_ne_nil lkzg) hdkc her
    exact ⟨by rw [key], by rw [key]⟩
  · intro hlen
    have hsing : ∀ t ∈ [s], t ≠ [] := by simpa using hne
    have dkc : decodeKZGCommitments [s] =
        ([zeros48], some "incorrect length for blob KZG commitment") := by
      simp [decodeKZGCommitments, hdec, hlen]
    simp only [BlindedBeaconBlockBody.unpack,
      unpackRANDAOReveal_ok ({ o.MarshalJSON with blobKZGCommitments := some [s] })
        (goHexFmt_ne_nil o.randaoReveal) hrd hr1,
      andThen_ok,
      unpackETH1Data_ok ({ o.MarshalJSON with blobKZGCommitments := some [s] }) he,
      unpackGraffiti_ok ({ o.MarshalJSON with blobKZGCommitments := some [s] })
        (goHexFmt_ne_nil o.graffiti) hgd hg1,
      unpackProposerSlashings_ok ({ o.MarshalJSON with blobKZGCommitments := some [s] }) hps hps2,
      unpackAttesterSlashings_ok ({ o.MarshalJSON with blobKZGCommitments := some [s] }) has has2,
      unpackAttestations_ok ({ o.MarshalJSON with blobKZGCommitments := some [s] }) hat hat2,
      unpackDeposits_ok ({ o.MarshalJSON with blobKZGCommitments := some [s] }) hdp hdp2,
      unpackVoluntaryExits_ok ({ o.MarshalJSON with blobKZGCommitments := some [s] }) hve hve2,
      unpackSyncAggregate_ok ({ o.MarshalJSON with blobKZGCommitments := some [s] }) hsa,
      unpackExecutionPayloadHeader_ok ({ o.MarshalJSON with blobKZGCommitments := some [s] }) heph,
      unpackBLSToExecutionChanges_ok ({ o.MarshalJSON with blobKZGCommitments := some [s] }) hbls hbls2,
      unpackBlobKZGCommitments_err ({ o.MarshalJSON with blobKZGCommitments := some [s] })
        rfl hsing dkc,
      andThen_err]
  · intro hlen
    have hsing : ∀ t ∈ [s], t ≠ [] := by simpa using hne
    have dkc2 : decodeKZGCommitments [s] = ([bs], none) := by
      simp [decodeKZGCommitments, hdec, hlen]
    have key := unpack_all_ok ({ o.MarshalJSON with blobKZGCommitments := some [s] }) b
      (goHexFmt_ne_nil o.randaoReveal) hrd hr1 he
      (goHexFmt_ne_nil o.graffiti) hgd hg1
      hps hps2 has has2 hat hat2 hdp hdp2 hve hve2 hsa heph hbls hbls2
      rfl hsing dkc2 her
    exact ⟨by rw [key], by rw [key]⟩
  · intro hlen
    rw [SignedBeaconBlock.unpack_badlen ({ sb.MarshalJSON with signature := s })
      hm hne hdec hlen sr]
  · intro hlen
    have key := SignedBeaconBlock.unpack_ok ({ sb.MarshalJSON with signature := s })
      hm hne hdec hlen sr
    exact ⟨by rw [key], by rw [key]⟩

theorem C5_fixed_length_witness :
    ((emptyBody.unpack
        { exBody.MarshalJSON with randaoReveal := goHexFmt (List.replicate 95 0) }).2 =
      some "incorrect length for RANDAO reveal") ∧
    ((emptyBody.unpack
        { exBody.MarshalJSON with randaoReveal := goHexFmt (List.replicate 96 9) }).2 = none) ∧
    ((emptySigned.unpack
        { exSigned.MarshalJSON with signature := goHexFmt (List.replicate 97 0) }).2 =
      some ("incorrect length " ++ toString (List.replicate 97 (0 : Nat)).length ++
        " for signature")) :=
  ⟨(C5_fixed_length exBody exSigned emptyBody emptySigned (by decide) (by decide)
      (goHexFmt (List.replicate 95 0)) (List.replicate 95 0)
      (hexDecode_trim_goHexFmt _ (by decide)) (goHexFmt_ne_nil _)).1 (by decide),
    ((C5_fixed_length exBody exSigned emptyBody emptySigned (by decide) (by decide)
      (goHexFmt (List.replicate 96 9)) (List.replicate 96 9)
      (hexDecode_trim_goHexFmt _ (by decide)) (goHexFmt_ne_nil _)).2.1 (by decide)).1,
    (C5_fixed_length exBody exSigned emptyBody emptySigned (by decide) (by decide)
      (goHexFmt (List.replicate 97 0)) (List.replicate 97 0)
      (hexDecode_trim_goHexFmt _ (by decide)) (goHexFmt_ne_nil _)).2.2.2.2.2.2.1 (by decide)⟩

end Eth2

namespace Eth2

/-- C6: Missing mandatory field.  In an otherwise valid blinded-block-body
document, leaving any one of the twelve mandatory fields absent (an empty
string for the hex fields, nil for objects and sequences) makes unpack fail
with that field's missing-field error; and conversely, whenever unpack
succeeds, every mandatory field was present and non-empty in the wire data —
no mandatory field is ever defaulted. -/
theorem C6_missing_mandatory (o : BlindedBeaconBlockBody)
    (b : BlindedBeaconBlockBody) (ho : WFBody o) :
    (b.unpack { o.MarshalJSON with randaoReveal := [] }).2 =
      some "RANDAO reveal missing" ∧
    (b.unpack { o.MarshalJSON with eth1Data := none }).2 =
      some "ETH1 data missing" ∧
    (b.unpack { o.MarshalJSON with graffiti := [] }).2 =
      some "graffiti missing" ∧
    (b.unpack { o.MarshalJSON with proposerSlashings := none }).2 =
      some "proposer slashings missing" ∧
    (b.unpack { o.MarshalJSON with attesterSlashings := none }).2 =
      some "attester slashings missing" ∧
    (b.unpack { o.MarshalJSON with attestations := none }).2 =
      some "attestations missing" ∧
    (b.unpack { o.MarshalJSON with deposits := none }).2 =
      some "deposits missing" ∧
    (b.unpack { o.MarshalJSON with voluntaryExits := none }).2 =
      some "voluntary exits missing" ∧
    (b.unpack { o.MarshalJSON with syncAggregate := none }).2 =
      some "sync aggregate missing" ∧
    (b.unpack { o.MarshalJSON with executionPayloadHeader := none }).2 =
      some "execution payload header missing" ∧
    (b.unpack { o.MarshalJSON with blobKZGCommitments := none }).2 =
      some "blob KZG commitments missing" ∧
    (b.unpack { o.MarshalJSON with executionRequests := none }).2 =
      some "execution requests missing" ∧
    (∀ data : blindedBeaconBlockBodyJSON, (b.unpack data).2 = none →
      data.randaoReveal ≠ [] ∧ (data.eth1Data).isSome ∧ data.graffiti ≠ [] ∧
      (data.proposerSlashings).isSome ∧ (data.attesterSlashings).isSome ∧
      (data.attestations).isSome ∧ (data.deposits).isSome ∧
      (data.voluntaryExits).isSome ∧ (data.syncAggregate).isSome ∧
      (data.executionPayloadHeader).isSome ∧ (data.blobKZGCommitments).isSome ∧
      (data.executionRequests).isSome) := by
  obtain ⟨e, lps, las, lat, ldp, lve, sa, eph, lbls, lkzg, er, he, hps, hps2,
    has, has2, hat, hat2, hdp, hdp2, hve, hve2, hsa, heph, hbls, hbls2, hkzg,
    hkm, hdkc, her, hr1, hrd, hg1, hgd⟩ := WFBody_elim o ho
  refine ⟨?_, ?_, ?_, ?_, ?_, ?_, ?_, ?_, ?_, ?_, ?_, ?_, ?_⟩
  · simp only [BlindedBeaconBlockBody.unpack,
      unpackRANDAOReveal_missing ({ o.MarshalJSON with randaoReveal := [] }) rfl,
      andThen_err]
  · simp only [BlindedBeaconBlockBody.unpack,
      unpackRANDAOReveal_ok ({ o.MarshalJSON with eth1Data := none })
        (goHexFmt_ne_nil o.randaoReveal) hrd hr1,
      andThen_ok,
      unpackETH1Data_missing ({ o.MarshalJSON with eth1Data := none }) rfl,
      andThen_err]
  · simp only [BlindedBeaconBlockBody.unpack,
      unpackRANDAOReveal_ok ({ o.MarshalJSON with graffiti := [] })
        (goHexFmt_ne_nil o.randaoReveal) hrd hr1,
      andThen_ok,
      unpackETH1Data_ok ({ o.MarshalJSON with graffiti := [] }) he,
      unpackGraffiti_missing ({ o.MarshalJSON with graffiti := [] }) rfl,
      andThen_err]
  · simp only [BlindedBeaconBlockBody.unpack,
      unpackRANDAOReveal_ok ({ o.MarshalJSON with proposerSlashings := none })
        (goHexFmt_ne_nil o.randaoReveal) hrd hr1,
      andThen_ok,
      unpackETH1Data_ok ({ o.MarshalJSON with proposerSlashings := none }) he,
      unpackGraffiti_ok ({ o.MarshalJSON with proposerSlashings := none })
        (goHexFmt_ne_nil o.graffiti) hgd hg1,
      unpackProposerSlashings_missing ({ o.MarshalJSON with proposerSlashings := none }) rfl,
      andThen_err]
  · simp only [BlindedBeaconBlockBody.unpack,
      unpackRANDAOReveal_ok ({ o.MarshalJSON with attesterSlashings := none })
        (goHexFmt_ne_nil o.randaoReveal) hrd hr1,
      andThen_ok,
      unpackETH1Data_ok ({ o.MarshalJSON with attesterSlashings := none }) he,
      unpackGraffiti_ok ({ o.MarshalJSON with attesterSlashings := none })
        (goHexFmt_ne_nil o.graffiti) hgd hg1,
      unpackProposerSlashings_ok ({ o.MarshalJSON with attesterSlashings := none }) hps hps2,
      unpackAttesterSlashings_missing ({ o.MarshalJSON with attesterSlashings := none }) rfl,
      andThen_err]
  · simp only [BlindedBeaconBlockBody.unpack,
      unpackRANDAOReveal_ok ({ o.MarshalJSON with attestations := none })
        (goHexFmt_ne_nil o.randaoReveal) hrd hr1,
      andThen_ok,
      unpackETH1Data_ok ({ o.MarshalJSON with attestations := none }) he,
      unpackGraffiti_ok ({ o.MarshalJSON with attestations := none })
        (goHexFmt_ne_nil o.graffiti) hgd hg1,
      unpackProposerSlashings_ok ({ o.MarshalJSON with attestations := none }) hps hps2,
      unpackAttesterSlashings_ok ({ o.MarshalJSON with attestations := none }) has has2,
      unpackAttestations_missing ({ o.MarshalJSON with attestations := none }) rfl,
      andThen_err]
  · simp only [BlindedBeaconBlockBody.unpack,
      unpackRANDAOReveal_ok ({ o.MarshalJSON with deposits := none })
        (goHexFmt_ne_nil o.randaoReveal) hrd hr1,
      andThen_ok,
      unpackETH1Data_ok ({ o.MarshalJSON with deposits := none }) he,
      unpackGraffiti_ok ({ o.MarshalJSON with deposits := none })
        (goHexFmt_ne_nil o.graffiti) hgd hg1,
      unpackProposerSlashings_ok ({ o.MarshalJSON with deposits := none }) hps hps2,
      unpackAttesterSlashings_ok ({ o.MarshalJSON with deposits := none }) has has2,
      unpackAttestations_ok ({ o.MarshalJSON with deposits := none }) hat hat2,
      unpackDeposits_missing ({ o.MarshalJSON with deposits := none }) rfl,
      andThen_err]
  · simp only [BlindedBeaconBlockBody.unpack,
      unpackRANDAOReveal_ok ({ o.MarshalJSON with voluntaryExits := none })
        (goHexFmt_ne_nil o.randaoReveal) hrd hr1,
      andThen_ok,
      unpackETH1Data_ok ({ o.MarshalJSON with voluntaryExits := none }) he,
      unpackGraffiti_ok ({ o.MarshalJSON with voluntaryExits := none })
        (goHexFmt_ne_nil o.graffiti) hgd hg1,
      unpackProposerSlashings_ok ({ o.MarshalJSON with voluntaryExits := none }) hps hps2,
      unpackAttesterSlashings_ok ({ o.MarshalJSON with voluntaryExits := none }) has has2,
      unpackAttestations_ok ({ o.MarshalJSON with voluntaryExits := none }) hat hat2,
      unpackDeposits_ok ({ o.MarshalJSON with voluntaryExits := none }) hdp hdp2,
      unpackVoluntaryExits_missing ({ o.MarshalJSON with voluntaryExits := none }) rfl,
      andThen_err]
  · simp only [BlindedBeaconBlockBody.unpack,
      unpackRANDAOReveal_ok ({ o.MarshalJSON with syncAggregate := none })
        (goHexFmt_ne_nil o.randaoReveal) hrd hr1,
      andThen_ok,
      unpackETH1Data_ok ({ o.MarshalJSON with syncAggregate := none }) he,
      unpackGraffiti_ok ({ o.MarshalJSON with syncAggregate := none })
        (goHexFmt_ne_nil o.graffiti) hgd hg1,
      unpackProposerSlashings_ok ({ o.MarshalJSON with syncAggregate := none }) hps hps2,
      unpackAttesterSlashings_ok ({ o.MarshalJSON with syncAggregate := none }) has has2,
      unpackAttestations_ok ({ o.MarshalJSON with syncAggregate := none }) hat hat2,
      unpackDeposits_ok ({ o.MarshalJSON with syncAggregate := none }) hdp hdp2,
      unpackVoluntaryExits_ok ({ o.MarshalJSON with syncAggregate := none }) hve hve2,
      unpackSyncAggregate_missing ({ o.MarshalJSON with syncAggregate := none }) rfl,
      andThen_err]
  · simp only [BlindedBeaconBlockBody.unpack,
      unpackRANDAOReveal_ok ({ o.MarshalJSON with executionPayloadHeader := none })
        (goHexFmt_ne_nil o.randaoReveal) hrd hr1,
      andThen_ok,
      unpackETH1Data_ok ({ o.MarshalJSON with executionPayloadHeader := none }) he,
      unpackGraffiti_ok ({ o.MarshalJSON with executionPayloadHeader := none })
        (goHexFmt_ne_nil o.graffiti) hgd hg1,
      unpackProposerSlashings_ok ({ o.MarshalJSON with executionPayloadHeader := none }) hps hps2,
      unpackAttesterSlashings_ok ({ o.MarshalJSON with executionPayloadHeader := none }) has has2,
      unpackAttestations_ok ({ o.MarshalJSON with executionPayloadHeader := none }) hat hat2,
      unpackDeposits_ok ({ o.MarshalJSON with executionPayloadHeader := none }) hdp hdp2,
      unpackVoluntaryExits_ok ({ o.MarshalJSON with executionPayloadHeader := none }) hve hve2,
      unpackSyncAggregate_ok ({ o.MarshalJSON with executionPayloadHeader := none }) hsa,
      unpackExecutionPayloadHeader_missing
        ({ o.MarshalJSON with executionPayloadHeader := none }) rfl,
      andThen_err]
  · simp only [BlindedBeaconBlockBody.unpack,
      unpackRANDAOReveal_ok ({ o.MarshalJSON with blobKZGCommitments := none })
        (goHexFmt_ne_nil o.randaoReveal) hrd hr1,
      andThen_ok,
      unpackETH1Data_ok ({ o.MarshalJSON with blobKZGCommitments := none }) he,
      unpackGraffiti_ok ({ o.MarshalJSON with blobKZGCommitments := none })
        (goHexFmt_ne_nil o.graffiti) hgd hg1,
      unpackProposerSlashings_ok ({ o.MarshalJSON with blobKZGCommitments := none }) hps hps2,
      unpackAttesterSlashings_ok ({ o.MarshalJSON with blobKZGCommitments := none }) has has2,
      unpackAttestations_ok ({ o.MarshalJSON with blobKZGCommitments := none }) hat hat2,
      unpackDeposits_ok ({ o.MarshalJSON with blobKZGCommitments := none }) hdp hdp2,
      unpackVoluntaryExits_ok ({ o.MarshalJSON with blobKZGCommitments := none }) hve hve2,
      unpackSyncAggregate_ok ({ o.MarshalJSON with blobKZGCommitments := none }) hsa,
      unpackExecutionPayloadHeader_ok ({ o.MarshalJSON with blobKZGCommitments := none }) heph,
      unpackBLSToExecutionChanges_ok ({ o.MarshalJSON with blobKZGCommitments := none }) hbls hbls2,
      unpackBlobKZGCommitments_missing ({ o.MarshalJSON with blobKZGCommitments := none }) rfl,
      andThen_err]
  · simp only [BlindedBeaconBlockBody.unpack,
      unpackRANDAOReveal_ok ({ o.MarshalJSON with executionRequests := none })
        (goHexFmt_ne_nil o.randaoReveal) hrd hr1,
      andThen_ok,
      unpackETH1Data_ok ({ o.MarshalJSON with executionRequests := none }) he,
      unpackGraffiti_ok ({ o.MarshalJSON with executionRequests := none })
        (goHexFmt_ne_nil o.graffiti) hgd hg1,
      unpackProposerSlashings_ok ({ o.MarshalJSON with executionRequests := none }) hps hps2,
      unpackAttesterSlashings_ok ({ o.MarshalJSON with executionRequests := none }) has has2,
      unpackAttestations_ok ({ o.MarshalJSON with executionRequests := none }) hat hat2,
      unpackDeposits_ok ({ o.MarshalJSON with executionRequests := none }) hdp hdp2,
      unpackVoluntaryExits_ok ({ o.MarshalJSON with executionRequests := none }) hve hve2,
      unpackSyncAggregate_ok ({ o.MarshalJSON with executionRequests := none }) hsa,
      unpackExecutionPayloadHeader_ok ({ o.MarshalJSON with executionRequests := none }) heph,
      unpackBLSToExecutionChanges_ok ({ o.MarshalJSON with executionRequests := none }) hbls hbls2,
      unpackBlobKZGCommitments_ok ({ o.MarshalJSON with executionRequests := none })
        hkm (goHexFmt_all_ne_nil lkzg) hdkc,
      unpackExecutionRequests_missing ({ o.MarshalJSON with executionRequests := none }) rfl,
      andThen_err]
  · intro data hsucc
    unfold BlindedBeaconBlockBody.unpack at hsucc
    obtain ⟨c1, hsucc⟩ := andThen_eq_none _ _ hsucc
    obtain ⟨c2, hsucc⟩ := andThen_eq_none _ _ hsucc
    obtain ⟨c3, hsucc⟩ := andThen_eq_none _ _ hsucc
    obtain ⟨c4, hsucc⟩ := andThen_eq_none _ _ hsucc
    obtain ⟨c5, hsucc⟩ := andThen_eq_none _ _ hsucc
    obtain ⟨c6, hsucc⟩ := andThen_eq_none _ _ hsucc
    obtain ⟨c7, hsucc⟩ := andThen_eq_none _ _ hsucc
    obtain ⟨c8, hsucc⟩ := andThen_eq_none _ _ hsucc
    obtain ⟨c9, hsucc⟩ := andThen_eq_none _ _ hsucc
    obtain ⟨c10, hsucc⟩ := andThen_eq_none _ _ hsucc
    obtain ⟨c11, hsucc⟩ := andThen_eq_none _ _ hsucc
    obtain ⟨c12, hsucc⟩ := andThen_eq_none _ _ hsucc
    exact ⟨unpackRANDAOReveal_inv _ _ c1, unpackETH1Data_inv _ _ c2,
      unpackGraffiti_inv _ _ c3, unpackProposerSlashings_inv _ _ c4,
      unpackAttesterSlashings_inv _ _ c5, unpackAttestations_inv _ _ c6,
      unpackDeposits_inv _ _ c7, unpackVoluntaryExits_inv _ _ c8,
      unpackSyncAggregate_inv _ _ c9, unpackExecutionPayloadHeader_inv _ _ c10,
      unpackBlobKZGCommitments_inv _ _ c12, unpackExecutionRequests_inv _ _ hsucc⟩

theorem C6_missing_mandatory_witness :
    WFBody exBody ∧
      (emptyBody.unpack { exBody.MarshalJSON with randaoReveal := [] }).2 =
        some "RANDAO reveal missing" :=
  ⟨by decide, (C6_missing_mandatory exBody emptyBody (by decide)).1⟩

end Eth2

namespace Eth2

/-- C7: Optional-field default.  Omitting `bls_to_execution_changes` (nil)
from an otherwise valid blinded-block-body document still decodes
successfully and the resulting object's field is an empty, non-nil
sequence; when the field is present, a first null element at index `i` is a
decode error naming index `i`. -/
theorem C7_optional_bls_default (o b : BlindedBeaconBlockBody) (ho : WFBody o) :
    ((b.unpack { o.MarshalJSON with blsToExecutionChanges := none }).2 = none ∧
      ((b.unpack { o.MarshalJSON with blsToExecutionChanges := none }).1).blsToExecutionChanges =
        some []) ∧
    (∀ (l : List (Option SignedBLSToExecutionChange)) (i : Nat), FirstNoneAt l i →
      (b.unpack { o.MarshalJSON with blsToExecutionChanges := some l }).2 =
        some ("bls to execution changes entry " ++ toString i ++ " missing")) := by
  obtain ⟨e, lps, las, lat, ldp, lve, sa, eph, lbls, lkzg, er, he, hps, hps2,
    has, has2, hat, hat2, hdp, hdp2, hve, hve2, hsa, heph, hbls, hbls2, hkzg,
    hkm, hdkc, her, hr1, hrd, hg1, hgd⟩ := WFBody_elim o ho
  constructor
  · have key := unpack_all_blsDefault
      ({ o.MarshalJSON with blsToExecutionChanges := none }) b
      (goHexFmt_ne_nil o.randaoReveal) hrd hr1 he
      (goHexFmt_ne_nil o.graffiti) hgd hg1
      hps hps2 has has2 hat hat2 hdp hdp2 hve hve2 hsa heph rfl
      hkm (goHexFmt_all_ne_nil lkzg) hdkc her
    exact ⟨by rw [key], by rw [key]⟩
  · intro l i hfn
    simp only [BlindedBeaconBlockBody.unpack,
      unpackRANDAOReveal_ok ({ o.MarshalJSON with blsToExecutionChanges := some l })
        (goHexFmt_ne_nil o.randaoReveal) hrd hr1,
      andThen_ok,
      unpackETH1Data_ok ({ o.MarshalJSON with blsToExecutionChanges := some l }) he,
      unpackGraffiti_ok ({ o.MarshalJSON with blsToExecutionChanges := some l })
        (goHexFmt_ne_nil o.graffiti) hgd hg1,
      unpackProposerSlashings_ok ({ o.MarshalJSON with blsToExecutionChanges := some l }) hps hps2,
      unpackAttesterSlashings_ok ({ o.MarshalJSON with blsToExecutionChanges := some l }) has has2,
      unpackAttestations_ok ({ o.MarshalJSON with blsToExecutionChanges := some l }) hat hat2,
      unpackDeposits_ok ({ o.MarshalJSON with blsToExecutionChanges := some l }) hdp hdp2,
      unpackVoluntaryExits_ok ({ o.MarshalJSON with blsToExecutionChanges := some l }) hve hve2,
      unpackSyncAggregate_ok ({ o.MarshalJSON with blsToExecutionChanges := some l }) hsa,
      unpackExecutionPayloadHeader_ok ({ o.MarshalJSON with blsToExecutionChanges := some l }) heph,
      unpackBLSToExecutionChanges_entry ({ o.MarshalJSON with blsToExecutionChanges := some l })
        rfl hfn,
      andThen_err]

theorem C7_optional_bls_default_witness :
    (emptyBody.unpack { exBody.MarshalJSON with blsToExecutionChanges := none }).2 = none ∧
      ((emptyBody.unpack
          { exBody.MarshalJSON with blsToExecutionChanges := none }).1).blsToExecutionChanges =
        some [] ∧
      (emptyBody.unpack { exBody.MarshalJSON with blsToExecutionChanges := some [none] }).2 =
        some ("bls to execution changes entry " ++ toString 0 ++ " missing") :=
  ⟨((C7_optional_bls_default exBody emptyBody (by decide)).1).1,
    ((C7_optional_bls_default exBody emptyBody (by decide)).1).2,
    (C7_optional_bls_default exBody emptyBody (by decide)).2 [none] 0 (by decide)⟩

/-- C8: Null-element detection with index.  For each mandatory sequence
field of the blinded body, a present sequence whose first null element is
at index `i` makes unpack fail with an error naming that sequence and
index `i`, the earlier fields of the document being valid. -/
theorem C8_null_element_index (o b : BlindedBeaconBlockBody) (ho : WFBody o)
    (i : Nat) :
    (∀ l : List (Option ProposerSlashing), FirstNoneAt l i →
      (b.unpack { o.MarshalJSON with proposerSlashings := some l }).2 =
        some ("proposer slashings entry " ++ toString i ++ " missing")) ∧
    (∀ l : List (Option AttesterSlashing), FirstNoneAt l i →
      (b.unpack { o.MarshalJSON with attesterSlashings := some l }).2 =
        some ("attester slashings entry " ++ toString i ++ " missing")) ∧
    (∀ l : List (Option Attestation), FirstNoneAt l i →
      (b.unpack { o.MarshalJSON with attestations := some l }).2 =
        some ("attestations entry " ++ toString i ++ " missing")) ∧
    (∀ l : List (Option Deposit), FirstNoneAt l i →
      (b.unpack { o.MarshalJSON with deposits := some l }).2 =
        some ("deposits entry " ++ toString i ++ " missing")) ∧
    (∀ l : List (Option SignedVoluntaryExit), FirstNoneAt l i →
      (b.unpack { o.MarshalJSON with voluntaryExits := some l }).2 =
        some ("voluntary exits entry " ++ toString i ++ " missing")) := by
  obtain ⟨e, lps, las, lat, ldp, lve, sa, eph, lbls, lkzg, er, he, hps, hps2,
    has, has2, hat, hat2, hdp, hdp2, hve, hve2, hsa, heph, hbls, hbls2, hkzg,
    hkm, hdkc, her, hr1, hrd, hg1, hgd⟩ := WFBody_elim o ho
  refine ⟨?_, ?_, ?_, ?_, ?_⟩
  · intro l hfn
    simp only [BlindedBeaconBlockBody.unpack,
      unpackRANDAOReveal_ok ({ o.MarshalJSON with proposerSlashings := some l })
        (goHexFmt_ne_nil o.randaoReveal) hrd hr1,
      andThen_ok,
      unpackETH1Data_ok ({ o.MarshalJSON with proposerSlashings := some l }) he,
      unpackGraffiti_ok ({ o.MarshalJSON with proposerSlashings := some l })
        (goHexFmt_ne_nil o.graffiti) hgd hg1,
      unpackProposerSlashings_entry ({ o.MarshalJSON with proposerSlashings := some l })
        rfl hfn,
      andThen_err]
  · intro l hfn
    simp only [BlindedBeaconBlockBody.unpack,
      unpackRANDAOReveal_ok ({ o.MarshalJSON with attesterSlashings := some l })
        (goHexFmt_ne_nil o.randaoReveal) hrd hr1,
      andThen_ok,
      unpackETH1Data_ok ({ o.MarshalJSON with attesterSlashings := some l }) he,
      unpackGraffiti_ok ({ o.MarshalJSON with attesterSlashings := some l })
        (goHexFmt_ne_nil o.graffiti) hgd hg1,
      unpackProposerSlashings_ok ({ o.MarshalJSON with attesterSlashings := some l }) hps hps2,
      unpackAttesterSlashings_entry ({ o.MarshalJSON with attesterSlashings := some l })
        rfl hfn,
      andThen_err]
  · intro l hfn
    simp only [BlindedBeaconBlockBody.unpack,
      unpackRANDAOReveal_ok ({ o.MarshalJSON with attestations := some l })
        (goHexFmt_ne_nil o.randaoReveal) hrd hr1,
      andThen_ok,
      unpackETH1Data_ok ({ o.MarshalJSON with attestations := some l }) he,
      unpackGraffiti_ok ({ o.MarshalJSON with attestations := some l })
        (goHexFmt_ne_nil o.graffiti) hgd hg1,
      unpackProposerSlashings_ok ({ o.MarshalJSON with attestations := some l }) hps hps2,
      unpackAttesterSlashings_ok ({ o.MarshalJSON with attestations := some l }) has has2,
      unpackAttestations_entry ({ o.MarshalJSON with attestations := some l }) rfl hfn,
      andThen_err]
  · intro l hfn
    simp only [BlindedBeaconBlockBody.unpack,
      unpackRANDAOReveal_ok ({ o.MarshalJSON with deposits := some l })
        (goHexFmt_ne_nil o.randaoReveal) hrd hr1,
      andThen_ok,
      unpackETH1Data_ok ({ o.MarshalJSON with deposits := some l }) he,
      unpackGraffiti_ok ({ o.MarshalJSON with deposits := some l })
        (goHexFmt_ne_nil o.graffiti) hgd hg1,
      unpackProposerSlashings_ok ({ o.MarshalJSON with deposits := some l }) hps hps2,
      unpackAttesterSlashings_ok ({ o.MarshalJSON with deposits := some l }) has has2,
      unpackAttestations_ok ({ o.MarshalJSON with deposits := some l }) hat hat2,
      unpackDeposits_entry ({ o.MarshalJSON with deposits := some l }) rfl hfn,
      andThen_err]
  · intro l hfn
    simp only [BlindedBeaconBlockBody.unpack,
      unpackRANDAOReveal_ok ({ o.MarshalJSON with voluntaryExits := some l })
        (goHexFmt_ne_nil o.randaoReveal) hrd hr1,
      andThen_ok,
      unpackETH1Data_ok ({ o.MarshalJSON with voluntaryExits := some l }) he,
      unpackGraffiti_ok ({ o.MarshalJSON with voluntaryExits := some l })
        (goHexFmt_ne_nil o.graffiti) hgd hg1,
      unpackProposerSlashings_ok ({ o.MarshalJSON with voluntaryExits := some l }) hps hps2,
      unpackAttesterSlashings_ok ({ o.MarshalJSON with voluntaryExits := some l }) has has2,
      unpackAttestations_ok ({ o.MarshalJSON with voluntaryExits := some l }) hat hat2,
      unpackDeposits_ok ({ o.MarshalJSON with voluntaryExits := some l }) hdp hdp2,
      unpackVoluntaryExits_entry ({ o.MarshalJSON with voluntaryExits := some l }) rfl hfn,
      andThen_err]

theorem C8_null_element_index_witness :
    (emptyBody.unpack { exBody.MarshalJSON with deposits := some [none] }).2 =
      some ("deposits entry " ++ toString 0 ++ " missing") :=
  (C8_null_element_index exBody emptyBody (by decide) 0).2.2.2.1 [none] (by decide)

/-- C9: YAML quoting.  The byte output of `SignedBlockContents.MarshalYAML`
never contains a double-quote character, whatever the flow-style emitter
produced: every double quote of the emitter output is replaced by a single
quote (positionally), and every other character is kept unchanged. -/
theorem C9_yaml_quoting (yamlEmit : signedBlockContentsYAML → List Char)
    (s : SignedBlockContents) :
    ('"' ∉ SignedBlockContents.MarshalYAML yamlEmit s) ∧
    (∀ i : Nat, (yamlEmit s.yamlShape).get? i = some '"' →
      (SignedBlockContents.MarshalYAML yamlEmit s).get? i = some '\'') ∧
    (∀ (i : Nat) (c : Char), (yamlEmit s.yamlShape).get? i = some c → c ≠ '"' →
      (SignedBlockContents.MarshalYAML yamlEmit s).get? i = some c) := by
  refine ⟨?_, ?_, ?_⟩
  · intro hmem
    rcases List.mem_map.mp hmem with ⟨c, hc, hceq⟩
    by_cases h : c = '"'
    · subst h
      rw [if_pos rfl] at hceq
      exact absurd hceq (by decide)
    · rw [if_neg h] at hceq
      exact h hceq
  · intro i hi
    show (replaceQuotes (yamlEmit s.yamlShape)).get? i = some '\''
    unfold replaceQuotes
    rw [List.get?_map, hi]
    simp
  · intro i c hi hne
    show (replaceQuotes (yamlEmit s.yamlShape)).get? i = some c
    unfold replaceQuotes
    rw [List.get?_map, hi]
    simp [hne]

theorem C9_yaml_quoting_witness :
    ('"' ∉ SignedBlockContents.MarshalYAML exYamlEmitQ exContents) ∧
      (SignedBlockContents.MarshalYAML exYamlEmitQ exContents).get? 0 = some '\'' :=
  ⟨(C9_yaml_quoting exYamlEmitQ exContents).1,
    (C9_yaml_quoting exYamlEmitQ exContents).2.1 0 rfl⟩

/-- C10: The input `"0x"` (prefix with zero digits) on a mandatory hex field
is present, not missing: the emptiness check passes, the prefix is stripped,
hex decoding yields zero bytes, and unpack fails with that field's
incorrect-length error — never with the field-missing error. -/
theorem C10_empty_hex_value (o : BlindedBeaconBlockBody) (sb : SignedBeaconBlock)
    (b : BlindedBeaconBlockBody) (sr : SignedBeaconBlock)
    (ho : WFBody o) (hwsb : WFSigned sb) :
    (b.unpack { o.MarshalJSON with randaoReveal := ['0', 'x'] }).2 =
      some "incorrect length for RANDAO reveal" ∧
    (b.unpack { o.MarshalJSON with graffiti := ['0', 'x'] }).2 =
      some "incorrect length for graffiti" ∧
    (sr.unpack { sb.MarshalJSON with signature := ['0', 'x'] }).2 =
      some "incorrect length 0 for signature" := by
  obtain ⟨e, lps, las, lat, ldp, lve, sa, eph, lbls, lkzg, er, he, hps, hps2,
    has, has2, hat, hat2, hdp, hdp2, hve, hve2, hsa, heph, hbls, hbls2, hkzg,
    hkm, hdkc, her, hr1, hrd, hg1, hgd⟩ := WFBody_elim o ho
  obtain ⟨hmS, hsl, hsb2⟩ := hwsb
  obtain ⟨m, hm⟩ := Option.isSome_iff_exists.mp hmS
  have hne0 : (['0', 'x'] : List Char) ≠ [] := by simp
  have hdec0 : hexDecode (trimPrefix0x ['0', 'x']) = .ok [] := rfl
  have hlen0 : ([] : List Nat).length ≠ SignatureLength := by decide
  have hleng : ([] : List Nat).length ≠ GraffitiLength := by decide
  refine ⟨?_, ?_, ?_⟩
  · simp only [BlindedBeaconBlockBody.unpack,
      unpackRANDAOReveal_badlen ({ o.MarshalJSON with randaoReveal := ['0', 'x'] })
        hne0 hdec0 hlen0,
      andThen_err]
  · simp only [BlindedBeaconBlockBody.unpack,
      unpackRANDAOReveal_ok ({ o.MarshalJSON with graffiti := ['0', 'x'] })
        (goHexFmt_ne_nil o.randaoReveal) hrd hr1,
      andThen_ok,
      unpackETH1Data_ok ({ o.MarshalJSON with graffiti := ['0', 'x'] }) he,
      unpackGraffiti_badlen ({ o.MarshalJSON with graffiti := ['0', 'x'] })
        hne0 hdec0 hleng,
      andThen_err]
  · rw [SignedBeaconBlock.unpack_badlen ({ sb.MarshalJSON with signature := ['0', 'x'] })
      hm hne0 hdec0 hlen0 sr]
    rfl

theorem C10_empty_hex_value_witness :
    (emptyBody.unpack { exBody.MarshalJSON with graffiti := ['0', 'x'] }).2 =
      some "incorrect length for graffiti" :=
  (C10_empty_hex_value exBody exSigned emptyBody emptySigned
    (by decide) (by decide)).2.1

end Eth2

namespace Eth2

/-! ## Stage hex-error lemmas -/

theorem unpackRANDAOReveal_badhex (data : blindedBeaconBlockBodyJSON) {e : String}
    (h1 : data.randaoReveal ≠ [])
    (h2 : hexDecode (trimPrefix0x data.randaoReveal) = .error e) :
    ∀ b, unpackRANDAOReveal data b =
      (b, some ("invalid value for RANDAO reveal: " ++ e)) := by
  intro b
  simp [unpackRANDAOReveal, h1, h2]

theorem unpackGraffiti_badhex (data : blindedBeaconBlockBodyJSON) {e : String}
    (h1 : data.graffiti ≠ [])
    (h2 : hexDecode (trimPrefix0x data.graffiti) = .error e) :
    ∀ b, unpackGraffiti data b =
      (b, some ("invalid value for graffiti: " ++ e)) := by
  intro b
  simp [unpackGraffiti, h1, h2]

/-- C3 (amended): for every hex-string field — the blinded body's
`randao_reveal`, `graffiti` and blob KZG commitments, and the signed
block's `signature` — decoding strips only an optional lowercase `0x`
prefix.  A value with a lowercase `0x` prefix or with no prefix and valid
hex digits of the field's length decodes successfully, but an uppercase
`0X` prefix is not stripped: such a value fails hex decoding with that
field's invalid-value error, because `X` is not a hex digit. -/
theorem C3_hex_prefix_amended (o : BlindedBeaconBlockBody) (sb : SignedBeaconBlock)
    (b : BlindedBeaconBlockBody) (sr : SignedBeaconBlock)
    (ho : WFBody o) (hwsb : WFSigned sb)
    (bs96 bs32 bs48 : List Nat)
    (h96l : bs96.length = SignatureLength) (h96b : ∀ x ∈ bs96, x < 256)
    (h32l : bs32.length = GraffitiLength) (h32b : ∀ x ∈ bs32, x < 256)
    (h48l : bs48.length = KZGCommitmentLength) (h48b : ∀ x ∈ bs48, x < 256) :
    ((b.unpack { o.MarshalJSON with randaoReveal := '0' :: 'x' :: bytesToHex bs96 }).2 =
      none) ∧
    ((b.unpack { o.MarshalJSON with randaoReveal := bytesToHex bs96 }).2 = none) ∧
    ((b.unpack { o.MarshalJSON with randaoReveal := '0' :: 'X' :: bytesToHex bs96 }).2 =
      some "invalid value for RANDAO reveal: encoding/hex: invalid byte") ∧
    ((b.unpack { o.MarshalJSON with graffiti := '0' :: 'x' :: bytesToHex bs32 }).2 =
      none) ∧
    ((b.unpack { o.MarshalJSON with graffiti := bytesToHex bs32 }).2 = none) ∧
    ((b.unpack { o.MarshalJSON with graffiti := '0' :: 'X' :: bytesToHex bs32 }).2 =
      some "invalid value for graffiti: encoding/hex: invalid byte") ∧
    ((b.unpack { o.MarshalJSON with
        blobKZGCommitments := some ['0' :: 'x' :: bytesToHex bs48] }).2 = none) ∧
    ((b.unpack { o.MarshalJSON with
        blobKZGCommitments := some [bytesToHex bs48] }).2 = none) ∧
    ((b.unpack { o.MarshalJSON with
        blobKZGCommitments := some ['0' :: 'X' :: bytesToHex bs48] }).2 =
      some "failed to parse blob KZG commitment: encoding/hex: invalid byte") ∧
    ((sr.unpack { sb.MarshalJSON with signature := '0' :: 'x' :: bytesToHex bs96 }).2 =
      none) ∧
    ((sr.unpack { sb.MarshalJSON with signature := bytesToHex bs96 }).2 = none) ∧
    ((sr.unpack { sb.MarshalJSON with signature := '0' :: 'X' :: bytesToHex bs96 }).2 =
      some "invalid value for signature: encoding/hex: invalid byte") := by
  obtain ⟨e, lps, las, lat, ldp, lve, sa, eph, lbls, lkzg, er, he, hps, hps2,
    has, has2, hat, hat2, hdp, hdp2, hve, hve2, hsa, heph, hbls, hbls2, hkzg,
    hkm, hdkc, her, hr1, hrd, hg1, hgd⟩ := WFBody_elim o ho
  obtain ⟨hmS, hsl, hsb2⟩ := hwsb
  obtain ⟨m, hm⟩ := Option.isSome_iff_exists.mp hmS
  have hbs96 : bs96 ≠ [] := by
    intro hc
    rw [hc] at h96l
    simp [SignatureLength] at h96l
  have hbs32 : bs32 ≠ [] := by
    intro hc
    rw [hc] at h32l
    simp [GraffitiLength] at h32l
  have hbs48 : bs48 ≠ [] := by
    intro hc
    rw [hc] at h48l
    simp [KZGCommitmentLength] at h48l
  have hdU96 : hexDecode (trimPrefix0x ('0' :: 'X' :: bytesToHex bs96)) =
      .error "encoding/hex: invalid byte" := by
    rw [trimPrefix0x_upper]
    exact hexDecode_upperX _
  have hdU32 : hexDecode (trimPrefix0x ('0' :: 'X' :: bytesToHex bs32)) =
      .error "encoding/hex: invalid byte" := by
    rw [trimPrefix0x_upper]
    exact hexDecode_upperX _
  have hdU48 : hexDecode (trimPrefix0x ('0' :: 'X' :: bytesToHex bs48)) =
      .error "encoding/hex: invalid byte" := by
    rw [trimPrefix0x_upper]
    exact hexDecode_upperX _
  have hk1ne : ∀ t ∈ ['0' :: 'x' :: bytesToHex bs48], t ≠ [] := by
    intro t ht
    rw [List.mem_singleton] at ht
    subst ht
    simp
  have hk2ne : ∀ t ∈ [bytesToHex bs48], t ≠ [] := by
    intro t ht
    rw [List.mem_singleton] at ht
    subst ht
    exact bytesToHex_ne_nil hbs48
  have hk3ne : ∀ t ∈ ['0' :: 'X' :: bytesToHex bs48], t ≠ [] := by
    intro t ht
    rw [List.mem_singleton] at ht
    subst ht
    simp
  have hdk1 : decodeKZGCommitments ['0' :: 'x' :: bytesToHex bs48] = ([bs48], none) := by
    have hx : hexDecode (trimPrefix0x ('0' :: 'x' :: bytesToHex bs48)) = .ok bs48 :=
      hexDecode_trim_goHexFmt bs48 h48b
    simp [decodeKZGCommitments, hx, h48l]
  have hdk2 : decodeKZGCommitments [bytesToHex bs48] = ([bs48], none) := by
    simp [decodeKZGCommitments, hexDecode_trim_bytesToHex bs48 h48b, h48l]
  have hdk3 : decodeKZGCommitments ['0' :: 'X' :: bytesToHex bs48] =
      ([zeros48], some ("failed to parse blob KZG commitment: " ++
        "encoding/hex: invalid byte")) := by
    simp [decodeKZGCommitments, hdU48]
  refine ⟨?_, ?_, ?_, ?_, ?_, ?_, ?_, ?_, ?_, ?_, ?_, ?_⟩
  · have key := unpack_all_ok
      ({ o.MarshalJSON with randaoReveal := '0' :: 'x' :: bytesToHex bs96 }) b
      (goHexFmt_ne_nil bs96) (hexDecode_trim_goHexFmt bs96 h96b) h96l he
      (goHexFmt_ne_nil o.graffiti) hgd hg1
      hps hps2 has has2 hat hat2 hdp hdp2 hve hve2 hsa heph hbls hbls2
      hkm (goHexFmt_all_ne_nil lkzg) hdkc her
    rw [key]
  · have key := unpack_all_ok
      ({ o.MarshalJSON with randaoReveal := bytesToHex bs96 }) b
      (bytesToHex_ne_nil hbs96) (hexDecode_trim_bytesToHex bs96 h96b) h96l he
      (goHexFmt_ne_nil o.graffiti) hgd hg1
      hps hps2 has has2 hat hat2 hdp hdp2 hve hve2 hsa heph hbls hbls2
      hkm (goHexFmt_all_ne_nil lkzg) hdkc her
    rw [key]
  · have hne : ('0' :: 'X' :: bytesToHex bs96 : List Char) ≠ [] := by simp
    simp only [BlindedBeaconBlockBody.unpack,
      unpackRANDAOReveal_badhex
        ({ o.MarshalJSON with randaoReveal := '0' :: 'X' :: bytesToHex bs96 }) hne hdU96,
      andThen_err]
    rfl
  · have key := unpack_all_ok
      ({ o.MarshalJSON with graffiti := '0' :: 'x' :: bytesToHex bs32 }) b
      (goHexFmt_ne_nil o.randaoReveal) hrd hr1 he
      (goHexFmt_ne_nil bs32) (hexDecode_trim_goHexFmt bs32 h32b) h32l
      hps hps2 has has2 hat hat2 hdp hdp2 hve hve2 hsa heph hbls hbls2
      hkm (goHexFmt_all_ne_nil lkzg) hdkc her
    rw [key]
  · have key := unpack_all_ok
      ({ o.MarshalJSON with graffiti := bytesToHex bs32 }) b
      (goHexFmt_ne_nil o.randaoReveal) hrd hr1 he
      (bytesToHex_ne_nil hbs32) (hexDecode_trim_bytesToHex bs32 h32b) h32l
      hps hps2 has has2 hat hat2 hdp hdp2 hve hve2 hsa heph hbls hbls2
      hkm (goHexFmt_all_ne_nil lkzg) hdkc her
    rw [key]
  · have hne : ('0' :: 'X' :: bytesToHex bs32 : List Char) ≠ [] := by simp
    simp only [BlindedBeaconBlockBody.unpack,
      unpackRANDAOReveal_ok ({ o.MarshalJSON with graffiti := '0' :: 'X' :: bytesToHex bs32 })
        (goHexFmt_ne_nil o.randaoReveal) hrd hr1,
      andThen_ok,
      unpackETH1Data_ok ({ o.MarshalJSON with graffiti := '0' :: 'X' :: bytesToHex bs32 }) he,
      unpackGraffiti_badhex ({ o.MarshalJSON with graffiti := '0' :: 'X' :: bytesToHex bs32 })
        hne hdU32,
      andThen_err]
    rfl
  · have key := unpack_all_ok
      ({ o.MarshalJSON with blobKZGCommitments := some ['0' :: 'x' :: bytesToHex bs48] }) b
      (goHexFmt_ne_nil o.randaoReveal) hrd hr1 he
      (goHexFmt_ne_nil o.graffiti) hgd hg1
      hps hps2 has has2 hat hat2 hdp hdp2 hve hve2 hsa heph hbls hbls2
      rfl hk1ne hdk1 her
    rw [key]
  · have key := unpack_all_ok
      ({ o.MarshalJSON with blobKZGCommitments := some [bytesToHex bs48] }) b
      (goHexFmt_ne_nil o.randaoReveal) hrd hr1 he
      (goHexFmt_ne_nil o.graffiti) hgd hg1
      hps hps2 has has2 hat hat2 hdp hdp2 hve hve2 hsa heph hbls hbls2
      rfl hk2ne hdk2 her
    rw [key]
  · simp only [BlindedBeaconBlockBody.unpack,
      unpackRANDAOReveal_ok
        ({ o.MarshalJSON with blobKZGCommitments := some ['0' :: 'X' :: bytesToHex bs48] })
        (goHexFmt_ne_nil o.randaoReveal) hrd hr1,
      andThen_ok,
      unpackETH1Data_ok
        ({ o.MarshalJSON with blobKZGCommitments := some ['0' :: 'X' :: bytesToHex bs48] }) he,
      unpackGraffiti_ok
        ({ o.MarshalJSON with blobKZGCommitments := some ['0' :: 'X' :: bytesToHex bs48] })
        (goHexFmt_ne_nil o.graffiti) hgd hg1,
      unpackProposerSlashings_ok
        ({ o.MarshalJSON with blobKZGCommitments := some ['0' :: 'X' :: bytesToHex bs48] })
        hps hps2,
      unpackAttesterSlashings_ok
        ({ o.MarshalJSON with blobKZGCommitments := some ['0' :: 'X' :: bytesToHex bs48] })
        has has2,
      unpackAttestations_ok
        ({ o.MarshalJSON with blobKZGCommitments := some ['0' :: 'X' :: bytesToHex bs48] })
        hat hat2,
      unpackDeposits_ok
        ({ o.MarshalJSON with blobKZGCommitments := some ['0' :: 'X' :: bytesToHex bs48] })
        hdp hdp2,
      unpackVoluntaryExits_ok
        ({ o.MarshalJSON with blobKZGCommitments := some ['0' :: 'X' :: bytesToHex bs48] })
        hve hve2,
      unpackSyncAggregate_ok
        ({ o.MarshalJSON with blobKZGCommitments := some ['0' :: 'X' :: bytesToHex bs48] })
        hsa,
      unpackExecutionPayloadHeader_ok
        ({ o.MarshalJSON with blobKZGCommitments := some ['0' :: 'X' :: bytesToHex bs48] })
        heph,
      unpackBLSToExecutionChanges_ok
        ({ o.MarshalJSON with blobKZGCommitments := some ['0' :: 'X' :: bytesToHex bs48] })
        hbls hbls2,
      unpackBlobKZGCommitments_err
        ({ o.MarshalJSON with blobKZGCommitments := some ['0' :: 'X' :: bytesToHex bs48] })
        rfl hk3ne hdk3,
      andThen_err]
    rfl
  · rw [SignedBeaconBlock.unpack_ok
      ({ sb.MarshalJSON with signature := '0' :: 'x' :: bytesToHex bs96 })
      hm (goHexFmt_ne_nil bs96) (hexDecode_trim_goHexFmt bs96 h96b) h96l sr]
  · rw [SignedBeaconBlock.unpack_ok
      ({ sb.MarshalJSON with signature := bytesToHex bs96 })
      hm (bytesToHex_ne_nil hbs96) (hexDecode_trim_bytesToHex bs96 h96b) h96l sr]
  · have hne : ('0' :: 'X' :: bytesToHex bs96 : List Char) ≠ [] := by simp
    rw [SignedBeaconBlock.unpack_badhex
      ({ sb.MarshalJSON with signature := '0' :: 'X' :: bytesToHex bs96 })
      hm hne hdU96 sr]
    rfl

theorem C3_hex_prefix_amended_witness :
    (emptyBody.unpack
      { exBody.MarshalJSON with
        randaoReveal := '0' :: 'x' :: bytesToHex (List.replicate 96 0) }).2 = none ∧
    (emptyBody.unpack
      { exBody.MarshalJSON with
        randaoReveal := '0' :: 'X' :: bytesToHex (List.replicate 96 0) }).2 =
      some "invalid value for RANDAO reveal: encoding/hex: invalid byte" ∧
    (emptySigned.unpack
      { exSigned.MarshalJSON with
        signature := '0' :: 'x' :: bytesToHex (List.replicate 96 0) }).2 = none :=
  ⟨(C3_hex_prefix_amended exBody exSigned emptyBody emptySigned (by decide) (by decide)
      (List.replicate 96 0) (List.replicate 32 7) (List.replicate 48 5)
      (by decide) (by decide) (by decide) (by decide) (by decide) (by decide)).1,
    (C3_hex_prefix_amended exBody exSigned emptyBody emptySigned (by decide) (by decide)
      (List.replicate 96 0) (List.replicate 32 7) (List.replicate 48 5)
      (by decide) (by decide) (by decide) (by decide) (by decide) (by decide)).2.2.1,
    (C3_hex_prefix_amended exBody exSigned emptyBody emptySigned (by decide) (by decide)
      (List.replicate 96 0) (List.replicate 32 7) (List.replicate 48 5)
      (by decide) (by decide) (by decide) (by decide) (by decide)
      (by decide)).2.2.2.2.2.2.2.2.2.1⟩

end Eth2
